import Mathlib

deriving instance DecidableEq for Except

/-!
Verification of the TotalControl repository core against its specification.

This file gives a shallow embedding, in Lean 4, of the parts of the source
that the claims speak about:

  * `shared/models.py` — condition evaluation (`Progress.check_condition`),
    the rule engine (`RuleStore.get_blocked_items`) and rule loading
    (`Rule.from_dict` / `RuleStore.load`);
  * `windows/blocker.py` — the enforcement engine (`WindowsBlocker.update_blocked`,
    `_get_domains_for_item`, `_apply_hosts_block`);
  * `desktop/window_monitor.py` — the window-title classifier (`detect_screen_type`);
  * `ocr/screen_analyzer.py` — the OCR-text classifier (`classify_text`).

Conventions of the embedding:

  * Python `int` is modelled as `Int`, Python `float` arithmetic on the
    half-integer pattern scores and on coordinates as `ℚ` (all scores are
    multiples of 1/2, on which float arithmetic is exact).
  * Fallible Python code (statements that can raise) is modelled with
    `Except String`, the error string naming the Python exception class.
  * The ambient wall clock read by `datetime.now()` is passed explicitly as a
    `NowTime` value (seconds of the day plus microseconds), since the Python
    code reads it from the environment rather than from its arguments.
  * Python regular expressions are embedded as values of the `RE` type below
    and executed with a standard Brzozowski-derivative matcher; `re.IGNORECASE`
    is realised by lower-casing the subject and writing the pattern literals
    in lower case (the character classes used are case-closed). Strings in the
    repository are ASCII, so `str.lower` is modelled as ASCII lower-casing.
-/

/-! ### Small Python-semantics helpers -/

/-- ASCII lower-casing of one character, embedding CPython `str.lower` on the
ASCII range (all strings handled by this repository are ASCII). -/
def pyLowerChar (c : Char) : Char :=
  if 'A' ≤ c ∧ c ≤ 'Z' then Char.ofNat (c.toNat + 32) else c

/-- Embedding of Python `s.lower()`. -/
def pyLower (s : String) : String := ⟨s.data.map pyLowerChar⟩

/-- Does `cs` start with `pre`? (helper for substring search). -/
def leadsWith : List Char → List Char → Bool
  | [], _ => true
  | _ :: _, [] => false
  | p :: ps, c :: cs => p == c && leadsWith ps cs

/-- Index of the first occurrence of `nee` inside `hay`, if any
(embedding of Python `str.find` / the scanning of `re.sub` for a literal). -/
def findSub (hay nee : List Char) : Option Nat :=
  match hay with
  | [] => if nee.isEmpty then some 0 else none
  | _ :: rest =>
    if leadsWith nee hay then some 0
    else match findSub rest nee with
         | some i => some (i + 1)
         | none => none

/-- Embedding of the Python substring test `nee in hay`. -/
def strContains (hay nee : String) : Bool :=
  (findSub hay.data nee.data).isSome

/-- Insert a thousands separator before every third digit, walking a reversed
digit list (helper for the Python format spec `{n:,}`); `i` is the index of
the current character counted from the right end of the number. -/
def commaGroupRev : List Char → Nat → List Char
  | [], _ => []
  | c :: cs, i =>
    if i ≠ 0 ∧ i % 3 = 0 then ',' :: c :: commaGroupRev cs (i + 1)
    else c :: commaGroupRev cs (i + 1)

/-- Embedding of the Python format `f"{n:,}"` for a natural number. -/
def commaFmtNat (n : Nat) : String :=
  ⟨(commaGroupRev (toString n).data.reverse 0).reverse⟩

/-- Embedding of the Python format `f"{n:,}"` for an `int`. -/
def commaFmtInt (i : Int) : String :=
  if i < 0 then "-" ++ commaFmtNat i.natAbs else commaFmtNat i.toNat

/-! ### A small regular-expression engine (Brzozowski derivatives)

The repository matches window titles and OCR text with `re.search`.  Each
pattern used by the source is transcribed into an `RE` value below; matching
is by the standard derivative construction, which decides the same language. -/

inductive RE where
  | emp : RE
  | eps : RE
  | cls (p : Char → Bool) : RE
  | seq (a b : RE) : RE
  | alt (a b : RE) : RE
  | star (r : RE) : RE

namespace RE

def nullable : RE → Bool
  | emp => false
  | eps => true
  | cls _ => false
  | seq a b => nullable a && nullable b
  | alt a b => nullable a || nullable b
  | star _ => true

def deriv : RE → Char → RE
  | emp, _ => emp
  | eps, _ => emp
  | cls p, c => if p c then eps else emp
  | seq a b, c => if nullable a then alt (seq (deriv a c) b) (deriv b c) else seq (deriv a c) b
  | alt a b, c => alt (deriv a c) (deriv b c)
  | star r, c => seq (deriv r c) (star r)

/-- Does `r` match the entire character list? -/
def matchesFull : RE → List Char → Bool
  | r, [] => nullable r
  | r, c :: cs => matchesFull (deriv r c) cs

/-- Does `r` match some leading segment of the character list? -/
def matchesFromStart : RE → List Char → Bool
  | r, [] => nullable r
  | r, c :: cs => nullable r || matchesFromStart (deriv r c) cs

/-- Does `r` match somewhere inside the character list (`re.search`)? -/
def searchIn (r : RE) : List Char → Bool
  | [] => nullable r
  | cs@(_ :: rest) => matchesFromStart r cs || searchIn r rest

/-- One character, matched literally. -/
def chr (c : Char) : RE := cls (fun x => x == c)

/-- A literal string. -/
def lit (s : String) : RE := s.data.foldr (fun c r => seq (chr c) r) eps

/-- `r?` -/
def opt (r : RE) : RE := alt eps r

/-- `r+` -/
def plus (r : RE) : RE := seq r (star r)

/-- `.` — any character except a newline (Python `re` without `DOTALL`). -/
def dot : RE := cls (fun c => !(c == '\n'))

/-- `\w` — ASCII word character (the titles and OCR text handled are ASCII). -/
def wordc : RE := cls (fun c => c.isAlphanum || c == '_')

/-- `\s` — ASCII whitespace. -/
def spacec : RE := cls (fun c => c == ' ' || c == '\t' || c == '\n' || c == '\r' || c == '\x0b' || c == '\x0c')

/-- `\d` -/
def digitc : RE := cls Char.isDigit

/-- character class from an explicit list, e.g. `[km]`. -/
def oneOf (s : String) : RE := cls (fun c => s.data.contains c)

/-- Sequencing of a list of regexes. -/
def cat (rs : List RE) : RE := rs.foldr seq eps

end RE

/-- A pattern as the source uses it with `re.search`: `anchored = true` stands
for a pattern of the form `^…$` (which under `re.search` must match the whole
subject), `anchored = false` for an unanchored pattern searched anywhere. -/
structure Pat where
  src : String
  anchored : Bool
  re : RE

/-- Run a pattern the way the source runs `re.search(pattern, text, re.IGNORECASE)`:
the subject is already lower-cased by the caller. -/
def Pat.search (p : Pat) (cs : List Char) : Bool :=
  if p.anchored then p.re.matchesFull cs else p.re.searchIn cs

/-! ### `shared/models.py` — data model and condition evaluation -/

namespace Models

/-- `ConditionType` enum of `shared/models.py`, in declaration order. -/
inductive ConditionType where
  | STEPS | TIME | WORKOUT | LOCATION | TOMORROW | PASSWORD
deriving DecidableEq, Repr

/-- `Location` dataclass. Coordinates are Python floats, modelled as `ℚ`. -/
structure Location where
  name : String
  latitude : ℚ
  longitude : ℚ
  radius_meters : ℚ := 100
deriving DecidableEq, Repr

/-- `Condition` dataclass: a type tag plus optional type-specific payloads.
`time_target` is kept as the raw `"HH:MM"` string, as in the source; it is
parsed only inside `check_condition` (by `strptime`). -/
structure Condition where
  type : ConditionType
  steps_target : Option Int := none
  time_target : Option String := none
  workout_minutes : Option Int := none
  location : Option Location := none
deriving DecidableEq, Repr

/-- `Progress` dataclass. -/
structure Progress where
  steps_today : Int := 0
  workout_minutes_today : Int := 0
  current_location : Option Location := none
deriving DecidableEq, Repr

/-- The wall-clock value read by `datetime.now()` inside `check_condition`,
reduced to what that code consumes: the time of day in whole seconds plus the
microsecond part. -/
structure NowTime where
  secOfDay : Nat
  micro : Nat
deriving DecidableEq, Repr

/-- Digits to a number (helper for `parseHM`). -/
def digitsToNat (cs : List Char) : Nat :=
  cs.foldl (fun a c => a * 10 + (c.toNat - 48)) 0

/-- Split a character list at every occurrence of `sep`
(helper for `parseHM`; structural counterpart of `str.split`). -/
def splitOnChar (sep : Char) : List Char → List (List Char)
  | [] => [[]]
  | c :: cs =>
    match splitOnChar sep cs with
    | g :: gs => if c == sep then [] :: g :: gs else (c :: g) :: gs
    | [] => [[c]]

/-- Embedding of `datetime.strptime(s, "%H:%M").time()`: one or two digits for
the hour (0–23), a colon, one or two digits for the minute (0–59); anything
else raises `ValueError` (modelled by `none`). -/
def parseHM (s : String) : Option (Nat × Nat) :=
  match splitOnChar ':' s.data with
  | [hc, mc] =>
    if (hc.length == 1 || hc.length == 2) && hc.all Char.isDigit
        && (mc.length == 1 || mc.length == 2) && mc.all Char.isDigit then
      let h := digitsToNat hc
      let m := digitsToNat mc
      if h ≤ 23 ∧ m ≤ 59 then some (h, m) else none
    else none
  | _ => none

/-- Embedding of `Progress.check_condition(self, condition)` of
`shared/models.py` (lines 115–161).  The wall clock read by `datetime.now()`
in the `TIME` branch is the explicit argument `now`.  Branches:

  * `STEPS`: `met = steps_today >= steps_target`; the percentage
    `int(steps_today / steps_target * 100)` raises `ZeroDivisionError` when
    the target is `0`, and comparing with a missing target raises `TypeError`.
  * `TIME`: parse the target, compare against the current time of day, and on
    the unmet branch format the remaining whole minutes
    (`int(remaining.total_seconds() / 60)`, exact in our microsecond model;
    the Python code samples `datetime.now()` twice microseconds apart — once
    for the comparison and once for the remainder — modelled as one reading).
  * `WORKOUT`: plain comparison and `"cur/target min"` text.
  * `LOCATION`: `sqrt(dlat² + dlng²) * 111000 <= radius`; stated here by
    squaring both sides, which is equivalent for a non-negative radius, and
    false for a negative radius exactly as the `sqrt`-form is.
  * `TOMORROW` / `PASSWORD`: constant results. -/
def Progress.check_condition (p : Progress) (condition : Condition) (now : NowTime) :
    Except String (Bool × String) :=
  match condition.type with
  | ConditionType.STEPS =>
    match condition.steps_target with
    | none => Except.error "TypeError"
    | some t =>
      if t = 0 then Except.error "ZeroDivisionError"
      else
        let met := decide (t ≤ p.steps_today)
        -- `int(steps_today / steps_target * 100)` computed exactly:
        -- truncation toward zero of the rational steps_today·100/steps_target.
        let pct : Int := min 100 ((p.steps_today * 100).tdiv t)
        Except.ok (met, commaFmtInt p.steps_today ++ "/" ++ commaFmtInt t
          ++ " (" ++ toString pct ++ "%)")
  | ConditionType.TIME =>
    match condition.time_target with
    | none => Except.error "TypeError"
    | some ts =>
      match parseHM ts with
      | none => Except.error "ValueError"
      | some (h, m) =>
        let targetSec := h * 3600 + m * 60
        if targetSec ≤ now.secOfDay then Except.ok (true, "Time reached")
        else
          let remainingUs := (targetSec - now.secOfDay) * 1000000 - now.micro
          let mins := remainingUs / 60000000
          if 60 < mins then
            Except.ok (false, toString (mins / 60) ++ "h " ++ toString (mins % 60) ++ "m left")
          else
            Except.ok (false, toString mins ++ "m left")
  | ConditionType.WORKOUT =>
    match condition.workout_minutes with
    | none => Except.error "TypeError"
    | some t =>
      Except.ok (decide (t ≤ p.workout_minutes_today),
        toString p.workout_minutes_today ++ "/" ++ toString t ++ "min")
  | ConditionType.LOCATION =>
    match p.current_location with
    | none => Except.ok (false, "Location unknown")
    | some cur =>
      match condition.location with
      | none => Except.error "AttributeError"
      | some target =>
        let d2 := (cur.latitude - target.latitude) ^ 2 + (cur.longitude - target.longitude) ^ 2
        let met := decide (0 ≤ target.radius_meters ∧ d2 * 111000 ^ 2 ≤ target.radius_meters ^ 2)
        Except.ok (met, (if met then "At " else "Not at ") ++ target.name)
  | ConditionType.TOMORROW => Except.ok (false, "Blocked until tomorrow")
  | ConditionType.PASSWORD => Except.ok (false, "Enter password to unlock")

/-- `Rule` dataclass. -/
structure Rule where
  id : String
  blocked_items : List String
  condition : Condition
  enabled : Bool := true
  created_at : String := ""
deriving DecidableEq, Repr

/-- The `"location"` sub-dictionary of a persisted condition record; `Option`
fields model `dict.get`.  `name`, `lat` and `lng` are accessed with `[]` in
the source and therefore raise `KeyError` when missing. -/
structure LocRecord where
  name : Option String := none
  lat : Option ℚ := none
  lng : Option ℚ := none
  radius : Option ℚ := none
deriving Repr

/-- A parsed JSON `"condition"` record, as consumed by `Condition.from_dict`. -/
structure CondRecord where
  type : Option String := none
  steps_target : Option Int := none
  time_target : Option String := none
  workout_minutes : Option Int := none
  location : Option LocRecord := none
deriving Repr

/-- A parsed JSON rule record, as consumed by `Rule.from_dict`. -/
structure RuleRecord where
  id : Option String := none
  blocked_items : Option (List String) := none
  condition : Option CondRecord := none
  enabled : Option Bool := none
  created_at : Option String := none
deriving Repr

/-- Embedding of `ConditionType(value)`: the Python enum constructor raises
`ValueError` on an unknown value string. -/
def conditionTypeOfString (s : String) : Except String ConditionType :=
  if s = "steps" then Except.ok ConditionType.STEPS
  else if s = "time" then Except.ok ConditionType.TIME
  else if s = "workout" then Except.ok ConditionType.WORKOUT
  else if s = "location" then Except.ok ConditionType.LOCATION
  else if s = "tomorrow" then Except.ok ConditionType.TOMORROW
  else if s = "password" then Except.ok ConditionType.PASSWORD
  else Except.error "ValueError"

/-- Embedding of `Condition.from_dict` (`shared/models.py` lines 48–56):
`d["type"]` raises `KeyError` when absent, `ConditionType(...)` raises
`ValueError` on an unknown tag, the optional payloads use `d.get`, and a
present `"location"` sub-dict is read with mandatory `name`/`lat`/`lng` keys
and a defaulted `radius`. -/
def Condition.from_dict (d : CondRecord) : Except String Condition := do
  let ts ← match d.type with
           | none => Except.error "KeyError: type"
           | some t => Except.ok t
  let ty ← conditionTypeOfString ts
  let loc ← match d.location with
            | none => pure (none : Option Location)
            | some l => do
              let nm ← match l.name with
                       | none => Except.error "KeyError: name"
                       | some v => Except.ok v
              let la ← match l.lat with
                       | none => Except.error "KeyError: lat"
                       | some v => Except.ok v
              let lo ← match l.lng with
                       | none => Except.error "KeyError: lng"
                       | some v => Except.ok v
              pure (some { name := nm, latitude := la, longitude := lo,
                           radius_meters := l.radius.getD 100 })
  pure { type := ty, steps_target := d.steps_target, time_target := d.time_target,
         workout_minutes := d.workout_minutes, location := loc }

/-- Embedding of `Rule.from_dict` (`shared/models.py` lines 91–99).  `id`,
`blocked_items` and `condition` are mandatory keys (`KeyError` when absent);
`enabled` defaults to `True`; a missing `created_at` defaults to the ambient
`datetime.now().isoformat()`, passed here as the explicit `nowIso`. -/
def Rule.from_dict (nowIso : String) (d : RuleRecord) : Except String Rule := do
  let i ← match d.id with
          | none => Except.error "KeyError: id"
          | some v => Except.ok v
  let bi ← match d.blocked_items with
           | none => Except.error "KeyError: blocked_items"
           | some v => Except.ok v
  let cd ← match d.condition with
           | none => Except.error "KeyError: condition"
           | some v => Except.ok v
  let c ← Condition.from_dict cd
  pure { id := i, blocked_items := bi, condition := c,
         enabled := d.enabled.getD true, created_at := d.created_at.getD nowIso }

/-- Embedding of the record-level part of `RuleStore.load` (`shared/models.py`
lines 170–176): the list comprehension
`[Rule.from_dict(r) for r in data.get("rules", [])]`.  The comprehension
evaluates records in order, and an exception raised for one record aborts the
whole comprehension — only `FileNotFoundError` (not modelled here, a
file-level condition) is caught by `load`. -/
def RuleStore.loadRules (nowIso : String) (records : List RuleRecord) :
    Except String (List Rule) :=
  records.mapM (Rule.from_dict nowIso)

/-- The `for rule in self.rules` loop of `get_blocked_items`: skip a disabled
rule, otherwise evaluate its condition (an exception raised there propagates,
aborting the loop) and union in its `blocked_items` when the condition is
unmet. -/
def RuleStore.gbiLoop (p : Progress) (now : NowTime) :
    List Rule → Finset String → Except String (Finset String)
  | [], acc => Except.ok acc
  | r :: rest, acc =>
    if !r.enabled then RuleStore.gbiLoop p now rest acc
    else
      match p.check_condition r.condition now with
      | Except.error e => Except.error e
      | Except.ok (met, _) =>
        RuleStore.gbiLoop p now rest (if met then acc else acc ∪ r.blocked_items.toFinset)

/-- Embedding of `RuleStore.get_blocked_items` (`shared/models.py` lines
190–199): walk the rules in order, skip disabled ones, evaluate each remaining
condition, and collect the `blocked_items` of unmet rules.  The Python
function returns `list(set(blocked))` — a de-duplicated list in unspecified
set-iteration order — modelled here as the `Finset` of collected items. -/
def RuleStore.get_blocked_items (rules : List Rule) (p : Progress) (now : NowTime) :
    Except String (Finset String) :=
  RuleStore.gbiLoop p now rules (∅ : Finset String)

end Models

/-! ### `windows/blocker.py` — the enforcement engine -/

namespace Blocker

/-- The `SITE_DOMAINS` table (known site → domain list), in source order. -/
def SITE_DOMAINS : List (String × List String) :=
  [("netflix", ["netflix.com", "nflxvideo.net", "nflximg.net", "nflxso.net"]),
   ("youtube", ["youtube.com", "youtu.be", "googlevideo.com", "ytimg.com"]),
   ("tiktok", ["tiktok.com", "tiktokcdn.com", "tiktokv.com"]),
   ("reddit", ["reddit.com", "redd.it", "redditmedia.com"]),
   ("twitter", ["twitter.com", "x.com", "twimg.com"]),
   ("instagram", ["instagram.com", "cdninstagram.com"]),
   ("facebook", ["facebook.com", "fb.com", "fbcdn.net"]),
   ("twitch", ["twitch.tv", "twitchcdn.net"]),
   ("disney+", ["disneyplus.com", "disney-plus.net"]),
   ("hulu", ["hulu.com", "huluim.com"]),
   ("hbo", ["hbomax.com", "max.com"]),
   ("amazon", ["primevideo.com", "aiv-cdn.net"])]

def MARKER_START : String := "# === TOTALCONTROL START ==="

def MARKER_END : String := "# === TOTALCONTROL END ==="

/-- Embedding of `WindowsBlocker._get_domains_for_item` (`windows/blocker.py`
lines 59–72): a known site alias expands to its domain list; otherwise an item
containing a dot is taken to be a domain already; otherwise `.com` is
appended.  Note the dot test inspects the *original* item while the returned
domain is the lower-cased one, exactly as in the source. -/
def get_domains_for_item (item : String) : List String :=
  let item_lower := pyLower item
  match (SITE_DOMAINS.find? (fun kv => kv.1 == item_lower)) with
  | some kv => kv.2
  | none =>
    if strContains item "." then [item_lower]
    else [item_lower ++ ".com"]

/-- The mutable state of a `WindowsBlocker` that the claims are about: the
currently-applied blocked-item set (`self.blocked_items`, a Python `set`). -/
structure WindowsBlocker where
  blocked_items : Finset String
deriving DecidableEq

/-- The freshly constructed blocker: `__init__` sets `blocked_items = set()`. -/
def WindowsBlocker.init : WindowsBlocker := ⟨∅⟩

/-- Embedding of `WindowsBlocker.update_blocked` (`windows/blocker.py` lines
52–57): lower-case the incoming items into a set, and only when that set
differs from the current one, store it and run `_apply_hosts_block` (one
hosts-file write attempt).  The returned boolean records whether
`_apply_hosts_block` ran. -/
def WindowsBlocker.update_blocked (b : WindowsBlocker) (items : List String) :
    WindowsBlocker × Bool :=
  let new_blocked : Finset String := (items.map pyLower).toFinset
  if new_blocked = b.blocked_items then (b, false)
  else ({ blocked_items := new_blocked }, true)

/-- Remove every `MARKER_START … MARKER_END` span, embedding
`re.sub(re.escape(START) + ".*?" + re.escape(END), '', content, flags=DOTALL)`
from `_apply_hosts_block`: the leftmost `MARKER_START` with some
`MARKER_END` after it is matched non-greedily up to the first such
`MARKER_END`, the span is deleted, and scanning resumes after it.  The `fuel`
argument only bounds the recursion and is always sufficient when the function
is entered through `removeManaged`. -/
def removeManagedAux : Nat → List Char → List Char
  | 0, cs => cs
  | fuel + 1, cs =>
    match findSub cs MARKER_START.data with
    | none => cs
    | some i =>
      let rest := cs.drop (i + MARKER_START.data.length)
      match findSub rest MARKER_END.data with
      | none => cs
      | some j =>
        cs.take i ++ removeManagedAux fuel (rest.drop (j + MARKER_END.data.length))

/-- See `removeManagedAux`. -/
def removeManaged (content : String) : String :=
  ⟨removeManagedAux content.data.length content.data⟩

/-- Python string-level whitespace (the ASCII part relevant here). -/
def isPySpace (c : Char) : Bool :=
  c == ' ' || c == '\t' || c == '\n' || c == '\r' || c == '\x0b' || c == '\x0c'

/-- Embedding of Python `str.strip()` (no arguments): remove leading and
trailing whitespace. -/
def pyStrip (s : String) : String :=
  ⟨((s.data.dropWhile isPySpace).reverse.dropWhile isPySpace).reverse⟩

/-- The managed-region text generated by `_apply_hosts_block` for a non-empty
blocked set: `"\n".join(block_lines)` where `block_lines` is the start marker,
then for each blocked item and each of its domains a `127.0.0.1 domain` and a
`127.0.0.1 www.domain` line, then the end marker.  `items` is the iteration
order of the Python set `self.blocked_items` (which is unspecified), passed
here explicitly. -/
def regionText (items : List String) : String :=
  String.intercalate "\n"
    (MARKER_START ::
      (items.flatMap (fun it =>
        (get_domains_for_item it).flatMap (fun d =>
          ["127.0.0.1 " ++ d, "127.0.0.1 www." ++ d]))
       ++ [MARKER_END]))

/-- Embedding of the content transformation performed by
`WindowsBlocker._apply_hosts_block` (`windows/blocker.py` lines 74–108) on the
hosts-file text: strip any previously-inserted managed region, `str.strip()`
the result, and, when the blocked set is non-empty, append two blank-line-
separated lines and the freshly generated managed region.  File I/O, the
`PermissionError` soft-failure and the DNS flush are external effects outside
this content function. -/
def applyHostsContent (content : String) (items : List String) : String :=
  let c := pyStrip (removeManaged content)
  if items.isEmpty then c
  else c ++ "\n\n" ++ regionText items

end Blocker

/-! ### `desktop/window_monitor.py` — the window-title classifier -/

namespace WindowMonitor

/-- `ScreenType` enum of `desktop/window_monitor.py`. -/
inductive ScreenType where
  | DM | DM_LIST | SERVER_CHANNEL | FEED | UNKNOWN | ALLOWED
deriving DecidableEq, Repr

/-- `[\w\s]` -/
def wsCls : RE := RE.alt RE.wordc RE.spacec

/-- `[\w-]` -/
def wdCls : RE := RE.alt RE.wordc (RE.chr '-')

/-- An app definition row of the `APP_PATTERNS` table. -/
structure AppDef where
  wm_class : List String
  dm_patterns : List Pat
  server_patterns : List Pat

/-- The `'discord'` row of `APP_PATTERNS` (`desktop/window_monitor.py` lines
49–62); every regex is transcribed into the `RE` engine (literals
lower-cased, realising `re.IGNORECASE` on a lower-cased subject). -/
def discordDef : AppDef :=
  { wm_class := ["discord", "Discord"],
    dm_patterns :=
      [⟨"^@[\\w\\s]+ - Discord$", true,
        RE.cat [RE.chr '@', RE.plus wsCls, RE.lit " - discord"]⟩,
       ⟨"^Discord$", true, RE.lit "discord"⟩,
       ⟨"^Friends - Discord$", true, RE.lit "friends - discord"⟩,
       ⟨"^[\\w\\s]+ and \\d+ others? - Discord$", true,
        RE.cat [RE.plus wsCls, RE.lit " and ", RE.plus RE.digitc,
                RE.lit " other", RE.opt (RE.chr 's'), RE.lit " - discord"]⟩],
    server_patterns :=
      [⟨"^#[\\w-]+ - .+ - Discord$", true,
        RE.cat [RE.chr '#', RE.plus wdCls, RE.lit " - ", RE.plus RE.dot,
                RE.lit " - discord"]⟩,
       ⟨"^.+ - Discord$", true,
        RE.cat [RE.plus RE.dot, RE.lit " - discord"]⟩] }

/-- The `'slack'` row of `APP_PATTERNS` (lines 64–73). -/
def slackDef : AppDef :=
  { wm_class := ["slack", "Slack"],
    dm_patterns :=
      [⟨"^\\* .+ \\| Slack$", true,
        RE.cat [RE.lit "* ", RE.plus RE.dot, RE.lit " | slack"]⟩,
       ⟨"^[\\w\\s]+ \\| Slack$", true,
        RE.cat [RE.plus wsCls, RE.lit " | slack"]⟩],
    server_patterns :=
      [⟨"^#[\\w-]+ \\| .+ \\| Slack$", true,
        RE.cat [RE.chr '#', RE.plus wdCls, RE.lit " | ", RE.plus RE.dot,
                RE.lit " | slack"]⟩] }

/-- The `'twitter'` row of `APP_PATTERNS` (lines 75–86). -/
def twitterDef : AppDef :=
  { wm_class := ["twitter", "Twitter", "TweetDeck"],
    dm_patterns :=
      [⟨"Messages", false, RE.lit "messages"⟩,
       ⟨"Direct Messages", false, RE.lit "direct messages"⟩],
    server_patterns :=
      [⟨"Home", false, RE.lit "home"⟩,
       ⟨"Explore", false, RE.lit "explore"⟩,
       ⟨"Notifications", false, RE.lit "notifications"⟩] }

/-- The `APP_PATTERNS` table of `desktop/window_monitor.py` (lines 48–87), in
dictionary insertion order. -/
def APP_PATTERNS : List (String × AppDef) :=
  [("discord", discordDef), ("slack", slackDef), ("twitter", twitterDef)]

/-- The `ALLOWED_APPS` set literal.  Python set-iteration order is
unspecified; it can only influence which *name* is returned for a class
matching several entries, never the returned category. -/
def ALLOWED_APPS : List String :=
  ["spotify", "Spotify", "rhythmbox", "Rhythmbox", "vlc", "VLC",
   "telegram-desktop", "TelegramDesktop", "Telegram",
   "signal", "Signal", "element", "Element", "whatsapp", "WhatsApp"]

/-- The `BLOCKED_APPS` set literal. -/
def BLOCKED_APPS : List String := ["netflix", "tiktok"]

/-- Does an app definition's `wm_class` pattern list match the lower-cased
window class (`any(wc.lower() in wm_class_lower for wc in …)`)? -/
def wmClassMatches (d : AppDef) (wl : String) : Bool :=
  d.wm_class.any (fun wc => strContains wl (pyLower wc))

/-- Does any pattern in the list match the title
(`re.search(pattern, title, re.IGNORECASE)`)? -/
def anyPatMatches (ps : List Pat) (title : String) : Bool :=
  ps.any (fun p => p.search (pyLower title).data)

/-- Embedding of `detect_screen_type` (`desktop/window_monitor.py` lines
157–192), taking the two fields of `WindowInfo` that the function reads:
always-allowed classes first, then always-blocked ones, then the first
matching `APP_PATTERNS` row — inside it DM patterns before server patterns,
with `UNKNOWN` when neither matches and no fall-through to later rows — and
finally `("unknown", ALLOWED)` when nothing matched. -/
def detect_screen_type (wm_class title : String) : String × ScreenType :=
  let wl := pyLower wm_class
  match ALLOWED_APPS.find? (fun a => strContains wl (pyLower a)) with
  | some a => (a, ScreenType.ALLOWED)
  | none =>
    match BLOCKED_APPS.find? (fun b => strContains wl (pyLower b)) with
    | some b => (b, ScreenType.FEED)
    | none =>
      match APP_PATTERNS.find? (fun row => wmClassMatches row.2 wl) with
      | some (app_name, d) =>
        if anyPatMatches d.dm_patterns title then (app_name, ScreenType.DM)
        else if anyPatMatches d.server_patterns title then (app_name, ScreenType.SERVER_CHANNEL)
        else (app_name, ScreenType.UNKNOWN)
      | none => ("unknown", ScreenType.ALLOWED)

end WindowMonitor

/-! ### `ocr/screen_analyzer.py` — the OCR-text classifier -/

namespace ScreenAnalyzer

/-- `ScreenType` enum of `ocr/screen_analyzer.py`, in declaration order (the
order of the `scores` dictionary, which drives tie-breaking in `max`). -/
inductive ScreenType where
  | DM | FEED | REELS | NOTIFICATIONS | PROFILE | SEARCH | SETTINGS | UNKNOWN
deriving DecidableEq, Repr

/-- The enum members in declaration order. -/
def declOrder : List ScreenType :=
  [ScreenType.DM, ScreenType.FEED, ScreenType.REELS, ScreenType.NOTIFICATIONS,
   ScreenType.PROFILE, ScreenType.SEARCH, ScreenType.SETTINGS, ScreenType.UNKNOWN]

/-- One category's pattern tiers in the `PATTERNS` table. -/
structure PatternGroup where
  strong : List Pat := []
  medium : List Pat := []

/-- `[a-z-]` -/
def lowDash : RE := RE.cls (fun c => c.isLower || c == '-')

/-- Shorthand for `\s*`. -/
def ws : RE := RE.star RE.spacec

/-- Shorthand for `\s+`. -/
def ws1 : RE := RE.plus RE.spacec

/-- Shorthand for `\d+`. -/
def dd : RE := RE.plus RE.digitc

/-- Shorthand for an optional final `s` (`…s?`). -/
def sOpt : RE := RE.opt (RE.chr 's')

/-- The `PATTERNS` table of `ocr/screen_analyzer.py` (lines 57–174), keyed
directly by the enum member its key string denotes (every key is valid, so
the source's `except ValueError: continue` guard never fires), rows in
dictionary insertion order. -/
def PATTERNS : List (ScreenType × PatternGroup) :=
  [(ScreenType.DM,
    { strong :=
        [⟨"direct\\s*messages?", false, RE.cat [RE.lit "direct", ws, RE.lit "message", sOpt]⟩,
         ⟨"new\\s*message", false, RE.cat [RE.lit "new", ws, RE.lit "message"]⟩,
         ⟨"send\\s*a?\\s*message", false,
          RE.cat [RE.lit "send", ws, RE.opt (RE.chr 'a'), ws, RE.lit "message"]⟩,
         ⟨"message\\s*requests?", false, RE.cat [RE.lit "message", ws, RE.lit "request", sOpt]⟩,
         ⟨"start\\s*a?\\s*(new\\s*)?conversation", false,
          RE.cat [RE.lit "start", ws, RE.opt (RE.chr 'a'), ws,
                  RE.opt (RE.cat [RE.lit "new", ws]), RE.lit "conversation"]⟩,
         ⟨"type\\s*a\\s*message", false,
          RE.cat [RE.lit "type", ws, RE.chr 'a', ws, RE.lit "message"]⟩,
         ⟨"@\\w+\\s+online", false,
          RE.cat [RE.chr '@', RE.plus RE.wordc, ws1, RE.lit "online"]⟩,
         ⟨"friends?\\s*(online|\\d+)", false,
          RE.cat [RE.lit "friend", sOpt, ws, RE.alt (RE.lit "online") dd]⟩,
         ⟨"write\\s*a\\s*message", false,
          RE.cat [RE.lit "write", ws, RE.chr 'a', ws, RE.lit "message"]⟩,
         ⟨"chat\\s*with", false, RE.cat [RE.lit "chat", ws, RE.lit "with"]⟩],
      medium :=
        [⟨"inbox", false, RE.lit "inbox"⟩,
         ⟨"chats?", false, RE.cat [RE.lit "chat", sOpt]⟩,
         ⟨"conversations?", false, RE.cat [RE.lit "conversation", sOpt]⟩,
         ⟨"reply", false, RE.lit "reply"⟩,
         ⟨"delivered", false, RE.lit "delivered"⟩,
         ⟨"seen\\s+\\d", false, RE.cat [RE.lit "seen", ws1, RE.digitc]⟩,
         ⟨"typing\\.\\.\\.", false, RE.lit "typing..."⟩] }),
   (ScreenType.FEED,
    { strong :=
        [⟨"for\\s*you", false, RE.cat [RE.lit "for", ws, RE.lit "you"]⟩,
         ⟨"following\\s*tab", false, RE.cat [RE.lit "following", ws, RE.lit "tab"]⟩,
         ⟨"suggested\\s*(for\\s*you|posts?)", false,
          RE.cat [RE.lit "suggested", ws,
                  RE.alt (RE.cat [RE.lit "for", ws, RE.lit "you"])
                         (RE.cat [RE.lit "post", sOpt])]⟩,
         ⟨"sponsored", false, RE.lit "sponsored"⟩,
         ⟨"promoted", false, RE.lit "promoted"⟩,
         ⟨"trending\\s*(now|topics?)?", false,
          RE.cat [RE.lit "trending", ws,
                  RE.opt (RE.alt (RE.lit "now") (RE.cat [RE.lit "topic", sOpt]))]⟩,
         ⟨"what.?s\\s*happening", false,
          RE.cat [RE.lit "what", RE.opt RE.dot, RE.chr 's', ws, RE.lit "happening"]⟩,
         ⟨"discover\\s*more", false, RE.cat [RE.lit "discover", ws, RE.lit "more"]⟩,
         ⟨"explore\\s*page", false, RE.cat [RE.lit "explore", ws, RE.lit "page"]⟩,
         ⟨"popular\\s*(posts?|now)?", false,
          RE.cat [RE.lit "popular", ws,
                  RE.opt (RE.alt (RE.cat [RE.lit "post", sOpt]) (RE.lit "now"))]⟩,
         ⟨"top\\s*posts?", false, RE.cat [RE.lit "top", ws, RE.lit "post", sOpt]⟩,
         ⟨"new\\s*posts?", false, RE.cat [RE.lit "new", ws, RE.lit "post", sOpt]⟩,
         ⟨"\\d+\\s*(likes?|comments?|shares?|retweets?)", false,
          RE.cat [dd, ws,
                  RE.alt (RE.alt (RE.cat [RE.lit "like", sOpt])
                                 (RE.cat [RE.lit "comment", sOpt]))
                         (RE.alt (RE.cat [RE.lit "share", sOpt])
                                 (RE.cat [RE.lit "retweet", sOpt]))]⟩,
         ⟨"liked\\s*by\\s*\\d+", false,
          RE.cat [RE.lit "liked", ws, RE.lit "by", ws, dd]⟩,
         ⟨"view\\s*all\\s*\\d+\\s*comments?", false,
          RE.cat [RE.lit "view", ws, RE.lit "all", ws, dd, ws, RE.lit "comment", sOpt]⟩],
      medium :=
        [⟨"home", false, RE.lit "home"⟩,
         ⟨"feed", false, RE.lit "feed"⟩,
         ⟨"timeline", false, RE.lit "timeline"⟩,
         ⟨"posts?", false, RE.cat [RE.lit "post", sOpt]⟩,
         ⟨"stories", false, RE.lit "stories"⟩,
         ⟨"follow\\s*(back)?", false, RE.cat [RE.lit "follow", ws, RE.opt (RE.lit "back")]⟩,
         ⟨"share", false, RE.lit "share"⟩] }),
   (ScreenType.REELS,
    { strong :=
        [⟨"reels?", false, RE.cat [RE.lit "reel", sOpt]⟩,
         ⟨"shorts?", false, RE.cat [RE.lit "short", sOpt]⟩,
         ⟨"tiktok", false, RE.lit "tiktok"⟩,
         ⟨"watch\\s*now", false, RE.cat [RE.lit "watch", ws, RE.lit "now"]⟩,
         ⟨"swipe\\s*up", false, RE.cat [RE.lit "swipe", ws, RE.lit "up"]⟩,
         ⟨"original\\s*audio", false, RE.cat [RE.lit "original", ws, RE.lit "audio"]⟩,
         ⟨"trending\\s*audio", false, RE.cat [RE.lit "trending", ws, RE.lit "audio"]⟩,
         ⟨"use\\s*this\\s*(sound|audio)", false,
          RE.cat [RE.lit "use", ws, RE.lit "this", ws,
                  RE.alt (RE.lit "sound") (RE.lit "audio")]⟩] }),
   (ScreenType.NOTIFICATIONS,
    { strong :=
        [⟨"notifications?", false, RE.cat [RE.lit "notification", sOpt]⟩,
         ⟨"activity", false, RE.lit "activity"⟩,
         ⟨"all\\s*notifications?", false,
          RE.cat [RE.lit "all", ws, RE.lit "notification", sOpt]⟩,
         ⟨"mentions?", false, RE.cat [RE.lit "mention", sOpt]⟩,
         ⟨"replied\\s*to\\s*you", false,
          RE.cat [RE.lit "replied", ws, RE.lit "to", ws, RE.lit "you"]⟩,
         ⟨"mentioned\\s*you", false, RE.cat [RE.lit "mentioned", ws, RE.lit "you"]⟩,
         ⟨"tagged\\s*you", false, RE.cat [RE.lit "tagged", ws, RE.lit "you"]⟩] }),
   (ScreenType.PROFILE,
    { strong :=
        [⟨"(\\d+[km]?\\s*)?(followers?|following)", false,
          RE.cat [RE.opt (RE.cat [dd, RE.opt (RE.oneOf "km"), ws]),
                  RE.alt (RE.cat [RE.lit "follower", sOpt]) (RE.lit "following")]⟩,
         ⟨"edit\\s*profile", false, RE.cat [RE.lit "edit", ws, RE.lit "profile"]⟩,
         ⟨"bio", false, RE.lit "bio"⟩,
         ⟨"joined\\s*(jan|feb|mar|apr|may|jun|jul|aug|sep|oct|nov|dec)", false,
          RE.cat [RE.lit "joined", ws,
                  RE.alt (RE.alt (RE.alt (RE.lit "jan") (RE.lit "feb"))
                                 (RE.alt (RE.lit "mar") (RE.lit "apr")))
                         (RE.alt (RE.alt (RE.alt (RE.lit "may") (RE.lit "jun"))
                                         (RE.alt (RE.lit "jul") (RE.lit "aug")))
                                 (RE.alt (RE.alt (RE.lit "sep") (RE.lit "oct"))
                                         (RE.alt (RE.lit "nov") (RE.lit "dec"))))]⟩,
         ⟨"\\d+\\s*posts?\\s+\\d+\\s*followers?", false,
          RE.cat [dd, ws, RE.lit "post", sOpt, ws1, dd, ws, RE.lit "follower", sOpt]⟩] }),
   (ScreenType.SEARCH,
    { strong :=
        [⟨"search\\s*(twitter|x|instagram|facebook|reddit)", false,
          RE.cat [RE.lit "search", ws,
                  RE.alt (RE.alt (RE.lit "twitter") (RE.chr 'x'))
                         (RE.alt (RE.lit "instagram")
                                 (RE.alt (RE.lit "facebook") (RE.lit "reddit")))]⟩,
         ⟨"search\\s*results?", false, RE.cat [RE.lit "search", ws, RE.lit "result", sOpt]⟩,
         ⟨"try\\s*searching", false, RE.cat [RE.lit "try", ws, RE.lit "searching"]⟩,
         ⟨"recent\\s*searches?", false,
          RE.cat [RE.lit "recent", ws, RE.lit "searche", sOpt]⟩] }),
   (ScreenType.SETTINGS,
    { strong :=
        [⟨"settings?\\s*(and|&)?\\s*privacy", false,
          RE.cat [RE.lit "setting", sOpt, ws, RE.opt (RE.alt (RE.lit "and") (RE.chr '&')),
                  ws, RE.lit "privacy"]⟩,
         ⟨"account\\s*settings?", false,
          RE.cat [RE.lit "account", ws, RE.lit "setting", sOpt]⟩,
         ⟨"privacy\\s*settings?", false,
          RE.cat [RE.lit "privacy", ws, RE.lit "setting", sOpt]⟩,
         ⟨"notification\\s*settings?", false,
          RE.cat [RE.lit "notification", ws, RE.lit "setting", sOpt]⟩,
         ⟨"security", false, RE.lit "security"⟩,
         ⟨"password", false, RE.lit "password"⟩,
         ⟨"two.?factor", false, RE.cat [RE.lit "two", RE.opt RE.dot, RE.lit "factor"]⟩,
         ⟨"log\\s*out", false, RE.cat [RE.lit "log", ws, RE.lit "out"]⟩] })]

/-- One application's rows in the `APP_SPECIFIC` table: its `"dm"` and
`"feed"` pattern lists (dictionary insertion order: `dm` before `feed`). -/
structure AppSpec where
  dm : List Pat
  feed : List Pat

/-- The `APP_SPECIFIC` table of `ocr/screen_analyzer.py` (lines 177–202). -/
def APP_SPECIFIC : List (String × AppSpec) :=
  [("discord",
    { dm := [⟨"#\\s*friends", false, RE.cat [RE.chr '#', ws, RE.lit "friends"]⟩,
             ⟨"@me", false, RE.lit "@me"⟩,
             ⟨"direct\\s*messages", false, RE.cat [RE.lit "direct", ws, RE.lit "messages"]⟩],
      feed := [⟨"#[a-z-]+", false, RE.cat [RE.chr '#', RE.plus lowDash]⟩,
               ⟨"text\\s*channels?", false, RE.cat [RE.lit "text", ws, RE.lit "channel", sOpt]⟩,
               ⟨"voice\\s*channels?", false, RE.cat [RE.lit "voice", ws, RE.lit "channel", sOpt]⟩,
               ⟨"server\\s*settings", false, RE.cat [RE.lit "server", ws, RE.lit "settings"]⟩] }),
   ("twitter",
    { dm := [⟨"messages?", false, RE.cat [RE.lit "message", sOpt]⟩,
             ⟨"new\\s*message", false, RE.cat [RE.lit "new", ws, RE.lit "message"]⟩],
      feed := [⟨"for\\s*you", false, RE.cat [RE.lit "for", ws, RE.lit "you"]⟩,
               ⟨"following", false, RE.lit "following"⟩,
               ⟨"what.?s\\s*happening", false,
                RE.cat [RE.lit "what", RE.opt RE.dot, RE.chr 's', ws, RE.lit "happening"]⟩,
               ⟨"trending", false, RE.lit "trending"⟩] }),
   ("instagram",
    { dm := [⟨"messages?", false, RE.cat [RE.lit "message", sOpt]⟩,
             ⟨"send\\s*message", false, RE.cat [RE.lit "send", ws, RE.lit "message"]⟩,
             ⟨"primary", false, RE.lit "primary"⟩,
             ⟨"general", false, RE.lit "general"⟩],
      feed := [⟨"liked\\s*by", false, RE.cat [RE.lit "liked", ws, RE.lit "by"]⟩,
               ⟨"suggested\\s*for\\s*you", false,
                RE.cat [RE.lit "suggested", ws, RE.lit "for", ws, RE.lit "you"]⟩,
               ⟨"reels?", false, RE.cat [RE.lit "reel", sOpt]⟩,
               ⟨"explore", false, RE.lit "explore"⟩] }),
   ("reddit",
    { dm := [⟨"chat", false, RE.lit "chat"⟩,
             ⟨"inbox", false, RE.lit "inbox"⟩,
             ⟨"messages?", false, RE.cat [RE.lit "message", sOpt]⟩],
      feed := [⟨"r/\\w+", false, RE.cat [RE.lit "r/", RE.plus RE.wordc]⟩,
               ⟨"popular", false, RE.lit "popular"⟩,
               ⟨"upvote", false, RE.lit "upvote"⟩,
               ⟨"downvote", false, RE.lit "downvote"⟩,
               ⟨"karma", false, RE.lit "karma"⟩] }),
   ("facebook",
    { dm := [⟨"messenger", false, RE.lit "messenger"⟩,
             ⟨"new\\s*message", false, RE.cat [RE.lit "new", ws, RE.lit "message"]⟩,
             ⟨"chats?", false, RE.cat [RE.lit "chat", sOpt]⟩],
      feed := [⟨"news\\s*feed", false, RE.cat [RE.lit "news", ws, RE.lit "feed"]⟩,
               ⟨"stories", false, RE.lit "stories"⟩,
               ⟨"reels?", false, RE.cat [RE.lit "reel", sOpt]⟩,
               ⟨"marketplace", false, RE.lit "marketplace"⟩] }),
   ("linkedin",
    { dm := [⟨"messaging", false, RE.lit "messaging"⟩,
             ⟨"inmail", false, RE.lit "inmail"⟩],
      feed := [⟨"feed", false, RE.lit "feed"⟩,
               ⟨"connections?", false, RE.cat [RE.lit "connection", sOpt]⟩,
               ⟨"jobs?", false, RE.cat [RE.lit "job", sOpt]⟩] })]

/-- One score contribution tested by `classify_text`: a category, a weight,
the evidence string recorded on a match, and the pattern itself. -/
structure ScoreEntry where
  st : ScreenType
  w : ℚ
  name : String
  pat : Pat

/-- The general pattern entries in the exact order `classify_text` iterates
them: table rows in insertion order, within each row the `strong` tier
(weight 2.0, evidence `"strong:<pattern>"`) then the `medium` tier
(weight 0.5, evidence `"medium:<pattern>"`). -/
def generalEntries : List ScoreEntry :=
  PATTERNS.flatMap (fun row =>
    row.2.strong.map (fun p => ⟨row.1, 2, "strong:" ++ p.src, p⟩)
    ++ row.2.medium.map (fun p => ⟨row.1, 1/2, "medium:" ++ p.src, p⟩))

/-- The app-specific entries for the lower-cased app hint `al`, in iteration
order: for every `APP_SPECIFIC` row whose key occurs inside `al`
(`if app_name in app_lower`), the `dm` list then the `feed` list, each match
scoring 1.5 with evidence `"app:<app>:<pattern>"`. -/
def appEntries (al : String) : List ScoreEntry :=
  APP_SPECIFIC.flatMap (fun row =>
    if strContains al row.1 then
      row.2.dm.map (fun p => ⟨ScreenType.DM, 3/2, "app:" ++ row.1 ++ ":" ++ p.src, p⟩)
      ++ row.2.feed.map (fun p => ⟨ScreenType.FEED, 3/2, "app:" ++ row.1 ++ ":" ++ p.src, p⟩)
    else [])

/-- Add `w` to category `st` of a score table (`scores[st] += w`). -/
def bump (st : ScreenType) (w : ℚ) (f : ScreenType → ℚ) : ScreenType → ℚ :=
  fun t => if t = st then f t + w else f t

/-- Append evidence `n` to category `st` (`matched[st].append(n)`). -/
def pushName (st : ScreenType) (n : String) (g : ScreenType → List String) :
    ScreenType → List String :=
  fun t => if t = st then g t ++ [n] else g t

/-- One iteration of the scoring loops of `classify_text`: on a match, add
the entry's weight to its category and record its evidence. -/
def scoreStep (tl : List Char)
    (acc : (ScreenType → ℚ) × (ScreenType → List String)) (e : ScoreEntry) :
    (ScreenType → ℚ) × (ScreenType → List String) :=
  if e.pat.search tl then (bump e.st e.w acc.1, pushName e.st e.name acc.2) else acc

/-- The score/evidence accumulation loops of `classify_text`
(`ocr/screen_analyzer.py` lines 238–269), expressed as one left fold over the
entry sequence in iteration order. -/
def runEntries (tl : List Char) (es : List ScoreEntry) :
    (ScreenType → ℚ) × (ScreenType → List String) :=
  es.foldl (scoreStep tl) (fun _ => 0, fun _ => [])

/-- `max(scores, key=scores.get)`: Python's `max` walks the dictionary in
insertion (declaration) order and replaces the current best only on a
strictly greater score, so the first-declared category wins ties. -/
def pickBest (f : ScreenType → ℚ) : ScreenType :=
  (declOrder.drop 1).foldl (fun b st => if f b < f st then st else b) ScreenType.DM

/-- Embedding of `classify_text` (`ocr/screen_analyzer.py` lines 230–283):
score every general pattern tier and the app-specific lists of matching
apps, select the best category, compute `confidence = best/total` guarded by
`total > 0` and clamped with `min(confidence, 1.0)`, and degrade to
`(UNKNOWN, 0.0, [])` when the best score is below 1.0. -/
def classify_text (text app_hint : String) : ScreenType × ℚ × List String :=
  let tl := (pyLower text).data
  let al := pyLower app_hint
  let sm := runEntries tl (generalEntries ++ appEntries al)
  let best_type := pickBest sm.1
  let best_score := sm.1 best_type
  let total_score := (declOrder.map sm.1).sum
  let confidence := if 0 < total_score then best_score / total_score else 0
  if best_score < 1 then (ScreenType.UNKNOWN, 0, [])
  else (best_type, min confidence 1, sm.2 best_type)

/-- Embedding of `should_block` (`ocr/screen_analyzer.py` lines 286–293). -/
def should_block (st : ScreenType) : Bool :=
  !(st == ScreenType.DM || st == ScreenType.NOTIFICATIONS || st == ScreenType.SETTINGS)

/-! #### Spec-side restatement of the scoring contract (for claim C7)

The following definitions transcribe §4.4 of the specification *in its own
words* — per-tier match counts weighted 2.0 / 0.5 / 1.5, first-declared
argmax, confidence as a clamped quotient — to be proved equal to the
source-translated `classify_text` above. -/

/-- How many patterns of `ps` match the subject. -/
def countMatches (ps : List Pat) (tl : List Char) : Nat :=
  (ps.filter (fun p => p.search tl)).length

/-- The pattern tiers the table declares for a category (`UNKNOWN` has none). -/
def patternsFor (st : ScreenType) : PatternGroup :=
  ((PATTERNS.find? (fun row => decide (row.1 = st))).map (fun row => row.2)).getD {}

/-- Spec wording: the number of app-specific matches credited to category
`st` — `dm`-list matches for `DM`, `feed`-list matches for `FEED`, summed
over every known application whose name occurs in the hint. -/
def appMatchCount (al : String) (tl : List Char) (st : ScreenType) : Nat :=
  (APP_SPECIFIC.map (fun row =>
    if strContains al row.1 then
      countMatches
        (if st = ScreenType.DM then row.2.dm
         else if st = ScreenType.FEED then row.2.feed else []) tl
    else 0)).sum

/-- Spec wording of the score: `+2.0` per strong match, `+0.5` per medium
match, `+1.5` per app-specific match. -/
def specScore (text app_hint : String) (st : ScreenType) : ℚ :=
  let tl := (pyLower text).data
  let al := pyLower app_hint
  2 * (countMatches (patternsFor st).strong tl : ℚ)
    + (1 / 2) * (countMatches (patternsFor st).medium tl : ℚ)
    + (3 / 2) * (appMatchCount al tl st : ℚ)

/-- Spec wording of the selection rule: the first category in declaration
order whose score equals the maximum score. -/
def specBest (f : ScreenType → ℚ) : ScreenType :=
  let m := (declOrder.drop 1).foldl (fun q st => max q (f st)) (f ScreenType.DM)
  (declOrder.find? (fun st => decide (f st = m))).getD ScreenType.DM

/-- The total weight of the matching entries of one category inside an entry
sequence (the value the accumulation loops add to that category's score). -/
def entryWeightSum (tl : List Char) (es : List ScoreEntry) (st : ScreenType) : ℚ :=
  ((es.filter (fun e => decide (e.st = st) && e.pat.search tl)).map (fun e => e.w)).sum

/-- The evidence names of the matching entries of one category inside an
entry sequence, in iteration order. -/
def entryNames (tl : List Char) (es : List ScoreEntry) (st : ScreenType) : List String :=
  (es.filter (fun e => decide (e.st = st) && e.pat.search tl)).map (fun e => e.name)

/-- The evidence list for a category: the names of its matching entries, in
iteration order (shared by the code path and the spec restatement — the spec
fixes only that `UNKNOWN` reports no evidence). -/
def matchedFor (text app_hint : String) (st : ScreenType) : List String :=
  entryNames (pyLower text).data (generalEntries ++ appEntries (pyLower app_hint)) st

/-- §4.4 of the specification as one function: count-based scores, first-
declared argmax, confidence `best/total` clamped to `[0,1]`, and the
below-1.0 degradation to `UNKNOWN`. -/
def specClassify (text app_hint : String) : ScreenType × ℚ × List String :=
  let f := specScore text app_hint
  let best := specBest f
  let total := (declOrder.map f).sum
  if f best < 1 then (ScreenType.UNKNOWN, 0, [])
  else (best, min (if 0 < total then f best / total else 0) 1, matchedFor text app_hint best)

end ScreenAnalyzer

/-! ## Theorems

General helper lemmas first, then the claim theorems, their witnesses and
counterexamples, in claim order. -/

/-- A valid codepoint round-trips through `Char.ofNat`. -/
theorem toNat_ofNat_valid (n : Nat) (h : n.isValidChar) : (Char.ofNat n).toNat = n := by
  simp only [Char.ofNat, h, dite_true, Char.ofNatAux, Char.toNat, UInt32.toNat]
  simp [BitVec.toNat_ofNatLt]

/-- ASCII lower-casing is idempotent at the character level. -/
theorem pyLowerChar_idem (c : Char) : pyLowerChar (pyLowerChar c) = pyLowerChar c := by
  unfold pyLowerChar
  by_cases h : 'A' ≤ c ∧ c ≤ 'Z'
  · simp only [h, if_true]
    have h1 : 65 ≤ c.toNat := h.1
    have h2 : c.toNat ≤ 90 := h.2
    have hv : (c.toNat + 32).isValidChar := Or.inl (by omega)
    have ht : (Char.ofNat (c.toNat + 32)).toNat = c.toNat + 32 := toNat_ofNat_valid _ hv
    have hnot : ¬ ('A' ≤ Char.ofNat (c.toNat + 32) ∧ Char.ofNat (c.toNat + 32) ≤ 'Z') := by
      intro hc
      have : (Char.ofNat (c.toNat + 32)).toNat ≤ 90 := hc.2
      omega
    simp [hnot]
  · simp [h]

/-- ASCII lower-casing is idempotent at the string level. -/
theorem pyLower_idem (s : String) : pyLower (pyLower s) = pyLower s := by
  unfold pyLower
  simp [Function.comp_def, pyLowerChar_idem]

/-- Claim C1, counterexample.  The claim asserts that `Progress.check_condition`
is pure and deterministic in `(condition, snapshot)` for all six condition
kinds *including `time`* — but the `time` branch reads the ambient wall clock
(`datetime.now()`), here the explicit `NowTime` argument: the same condition
(`"17:00"` target) and the same snapshot give `(False, "30m left")` at 16:30
and `(True, "Time reached")` at 17:01. -/
theorem C1_time_clock_counterexample :
    Models.Progress.check_condition {}
      { type := Models.ConditionType.TIME, time_target := some "17:00" } ⟨59400, 0⟩
    ≠ Models.Progress.check_condition {}
      { type := Models.ConditionType.TIME, time_target := some "17:00" } ⟨61260, 0⟩ := by
  decide

/-- Claim C1, amended: `check_condition` is a deterministic function of the
condition, the snapshot *and the wall-clock reading*; for the five non-`time`
kinds the result does not depend on the clock at all, so they are pure in
`(condition, snapshot)` alone. -/
theorem C1_determinism_amended (c : Models.Condition) (p : Models.Progress)
    (n₁ n₂ : Models.NowTime) (h : c.type ≠ Models.ConditionType.TIME) :
    p.check_condition c n₁ = p.check_condition c n₂ := by
  unfold Models.Progress.check_condition
  cases hc : c.type <;> simp_all

/-- Claim C1, witness for the amended theorem at a concrete `steps` condition
and two different clock readings. -/
theorem C1_determinism_witness :
    Models.Progress.check_condition { steps_today := 5000 }
      { type := Models.ConditionType.STEPS, steps_target := some 10000 } ⟨59400, 0⟩
    = Models.Progress.check_condition { steps_today := 5000 }
      { type := Models.ConditionType.STEPS, steps_target := some 10000 } ⟨61260, 0⟩ :=
  C1_determinism_amended _ _ _ _ (by decide)

/-- Claim C2.  The claim says a zero `steps` (or `workout`) target must not
raise a division error and must count as already met.  The code violates the
`steps` half: `int(self.steps_today / condition.steps_target * 100)` divides
by the target, so a zero target raises `ZeroDivisionError` for *every*
snapshot (first conjunct).  The `workout` branch computes no percentage and
does return normally, met, on a zero target (second conjunct). -/
theorem C2_steps_zero_division :
    (∀ (p : Models.Progress) (now : Models.NowTime),
      p.check_condition { type := Models.ConditionType.STEPS, steps_target := some 0 } now
        = Except.error "ZeroDivisionError")
    ∧ Models.Progress.check_condition {}
        { type := Models.ConditionType.WORKOUT, workout_minutes := some 0 } ⟨0, 0⟩
      = Except.ok (true, "0/0min") := by
  exact ⟨fun p now => rfl, by decide⟩

/-- Claim C3, counterexample.  The claim requires the `"Xh Ym left"` format
whenever the remaining duration is at least 60 minutes; the code uses the
strict test `mins > 60`, so at 16:00:00 against target `"17:00"` — exactly 60
minutes remaining — it answers `"60m left"`, not `"1h 0m left"`. -/
theorem C3_sixty_minutes_counterexample :
    Models.Progress.check_condition {}
      { type := Models.ConditionType.TIME, time_target := some "17:00" } ⟨57600, 0⟩
      = Except.ok (false, "60m left")
    ∧ "60m left" ≠ "1h 0m left" := by
  decide

/-- Claim C3, amended: met exactly when the current time of day is at or past
the target; when unmet, with `mins` the floor of the remaining duration in
minutes, the text is `"Xh Ym left"` when *strictly more* than 60 minutes
remain and `"Ym left"` otherwise (so exactly-60-minutes reads `"60m left"`).
The 16:30 / target-17:00 case of the claim (`"30m left"`) is the witness. -/
theorem C3_time_format_amended (tt : String) (th tm : Nat) (p : Models.Progress)
    (sec micro : Nat) (hparse : Models.parseHM tt = some (th, tm)) :
    (th * 3600 + tm * 60 ≤ sec →
      p.check_condition { type := Models.ConditionType.TIME, time_target := some tt } ⟨sec, micro⟩
        = Except.ok (true, "Time reached"))
    ∧ (sec < th * 3600 + tm * 60 →
        (60 < ((th * 3600 + tm * 60 - sec) * 1000000 - micro) / 60000000 →
          p.check_condition { type := Models.ConditionType.TIME, time_target := some tt } ⟨sec, micro⟩
            = Except.ok (false,
                toString ((((th * 3600 + tm * 60 - sec) * 1000000 - micro) / 60000000) / 60)
                ++ "h " ++ toString ((((th * 3600 + tm * 60 - sec) * 1000000 - micro) / 60000000) % 60)
                ++ "m left"))
        ∧ (((th * 3600 + tm * 60 - sec) * 1000000 - micro) / 60000000 ≤ 60 →
          p.check_condition { type := Models.ConditionType.TIME, time_target := some tt } ⟨sec, micro⟩
            = Except.ok (false,
                toString (((th * 3600 + tm * 60 - sec) * 1000000 - micro) / 60000000)
                ++ "m left"))) := by
  unfold Models.Progress.check_condition
  simp only [hparse]
  refine ⟨fun hle => ?_, fun hlt => ⟨fun hgt => ?_, fun hle60 => ?_⟩⟩
  · simp [hle]
  · simp [Nat.not_le.mpr hlt, hgt]
  · simp [Nat.not_le.mpr hlt, Nat.not_lt.mpr hle60]

/-- Claim C3, witness: target `"17:00"` at 16:30:00 is unmet with `"30m left"`,
obtained from the amended theorem. -/
theorem C3_time_format_witness :
    Models.Progress.check_condition {}
      { type := Models.ConditionType.TIME, time_target := some "17:00" } ⟨59400, 0⟩
      = Except.ok (false, "30m left") := by
  have h := (C3_time_format_amended "17:00" 17 0 {} 59400 0 (by decide)).2
    (by norm_num) |>.2 (by norm_num)
  simpa using h

/-- Membership in the set built by the `get_blocked_items` loop, relative to
the accumulator it starts from. -/
theorem gbiLoop_mem (p : Models.Progress) (now : Models.NowTime) :
    ∀ (rules : List Models.Rule) (acc S : Finset String),
      Models.RuleStore.gbiLoop p now rules acc = Except.ok S →
      ∀ s, s ∈ S ↔ s ∈ acc ∨ ∃ r, r ∈ rules ∧ r.enabled = true
        ∧ (∃ txt, p.check_condition r.condition now = Except.ok (false, txt))
        ∧ s ∈ r.blocked_items := by
  intro rules
  induction rules with
  | nil =>
    intro acc S h s
    rw [Models.RuleStore.gbiLoop] at h
    cases h
    simp
  | cons r rest ih =>
    intro acc S h s
    rw [Models.RuleStore.gbiLoop] at h
    by_cases he : r.enabled
    · rw [he] at h
      simp only [Bool.not_true, Bool.false_eq_true, if_false] at h
      rcases hch : p.check_condition r.condition now with e | pr
      · rw [hch] at h; cases h
      · obtain ⟨met, txt⟩ := pr
        rw [hch] at h
        cases met
        · -- condition unmet: the rule's items join the accumulator
          simp only [Bool.false_eq_true, if_false] at h
          have hmem := ih _ _ h s
          rw [hmem]
          simp only [Finset.mem_union, List.mem_toFinset, List.mem_cons]
          constructor
          · rintro (⟨hs | hs⟩ | ⟨r', hr', hrest⟩)
            · exact Or.inl hs
            · exact Or.inr ⟨r, Or.inl rfl, he, ⟨txt, hch⟩, hs⟩
            · exact Or.inr ⟨r', Or.inr hr', hrest⟩
          · rintro (hs | ⟨r', hr' | hr', hen, hev, hbi⟩)
            · exact Or.inl (Or.inl hs)
            · subst hr'; exact Or.inl (Or.inr hbi)
            · exact Or.inr ⟨r', hr', hen, hev, hbi⟩
        · -- condition met: the rule contributes nothing
          simp only [if_true] at h
          have hmem := ih _ _ h s
          rw [hmem]
          simp only [List.mem_cons]
          constructor
          · rintro (hs | ⟨r', hr', hrest⟩)
            · exact Or.inl hs
            · exact Or.inr ⟨r', Or.inr hr', hrest⟩
          · rintro (hs | ⟨r', hr' | hr', hen, hev, hbi⟩)
            · exact Or.inl hs
            · subst hr'
              obtain ⟨txt', hev⟩ := hev
              rw [hch] at hev
              cases hev
            · exact Or.inr ⟨r', hr', hen, hev, hbi⟩
    · rw [Bool.not_eq_true] at he
      rw [he] at h
      simp only [Bool.not_false, if_true] at h
      have hmem := ih _ _ h s
      rw [hmem]
      simp only [List.mem_cons]
      constructor
      · rintro (hs | ⟨r', hr', hrest⟩)
        · exact Or.inl hs
        · exact Or.inr ⟨r', Or.inr hr', hrest⟩
      · rintro (hs | ⟨r', hr' | hr', hen, hev, hbi⟩)
        · exact Or.inl hs
        · subst hr'; rw [he] at hen; cases hen
        · exact Or.inr ⟨r', hr', hen, hev, hbi⟩

/-- Claim C4, counterexample.  The claim says the returned items are
*case-folded*; the code puts the rule's items into the result verbatim
(`blocked.extend(rule.blocked_items)` then `list(set(blocked))`): one enabled,
unmet rule blocking `"Netflix"` yields `{"Netflix"}`, not the case-folded
`{"netflix"}`. -/
theorem C4_no_casefold_counterexample :
    Models.RuleStore.get_blocked_items
      [{ id := "r1", blocked_items := ["Netflix"],
         condition := { type := Models.ConditionType.TOMORROW } }] {} ⟨0, 0⟩
      = Except.ok {"Netflix"}
    ∧ "netflix" ∉ ({"Netflix"} : Finset String) := by
  decide

/-- Claim C4, amended: when the query returns normally, its result is exactly
the de-duplicated union — of the items *as written*, with no case folding —
over the enabled rules whose condition evaluated unmet; disabled rules
contribute nothing (and re-enabling a rule restores its items, since
membership depends on the `enabled` flag alone given the same evaluations). -/
theorem C4_blocked_union_amended (rules : List Models.Rule) (p : Models.Progress)
    (now : Models.NowTime) (S : Finset String)
    (h : Models.RuleStore.get_blocked_items rules p now = Except.ok S) (s : String) :
    s ∈ S ↔ ∃ r, r ∈ rules ∧ r.enabled = true
      ∧ (∃ txt, p.check_condition r.condition now = Except.ok (false, txt))
      ∧ s ∈ r.blocked_items := by
  have := gbiLoop_mem p now rules ∅ S h s
  simpa using this

/-- Claim C4, witness: a disabled rule blocking `"a"`, an enabled unmet rule
blocking `"b"` and an enabled met rule blocking `"c"` produce exactly
`{"b"}`; the amended theorem instantiates to the membership equivalence for
`"b"`. -/
theorem C4_blocked_union_witness :
    "b" ∈ ({"b"} : Finset String) ↔ ∃ r, r ∈
      ([{ id := "r1", blocked_items := ["a"],
          condition := { type := Models.ConditionType.TOMORROW }, enabled := false },
        { id := "r2", blocked_items := ["b"],
          condition := { type := Models.ConditionType.TOMORROW } },
        { id := "r3", blocked_items := ["c"],
          condition := { type := Models.ConditionType.STEPS, steps_target := some 1 } }]
        : List Models.Rule) ∧ r.enabled = true
      ∧ (∃ txt, Models.Progress.check_condition { steps_today := 5 } r.condition ⟨0, 0⟩
          = Except.ok (false, txt))
      ∧ "b" ∈ r.blocked_items :=
  C4_blocked_union_amended _ { steps_today := 5 } ⟨0, 0⟩ {"b"} (by decide) "b"

/-- Claim C5, counterexample.  The claim says calling `update_blocked` twice
in a row with the same item set performs *exactly one* hosts-file write,
during the first call.  When the set is already applied, *neither* call
writes: after an initial `update(["netflix"])`, the next two calls with
`["netflix"]` are two calls in a row with the same item set and both perform
zero writes. -/
theorem C5_idempotence_counterexample :
    (((Blocker.WindowsBlocker.init.update_blocked ["netflix"]).1.update_blocked
        ["netflix"]).2 = false)
    ∧ ((((Blocker.WindowsBlocker.init.update_blocked ["netflix"]).1.update_blocked
        ["netflix"]).1.update_blocked ["netflix"]).2 = false) := by
  decide

/-- Claim C5, amended: of two consecutive `update_blocked` calls with the same
item list, the second never writes and never changes the state, and the first
writes exactly when the (lower-cased) incoming set differs from the
currently-applied set — so the pair performs at most one write, and exactly
one precisely in that case. -/
theorem C5_idempotence_amended (b : Blocker.WindowsBlocker) (items : List String) :
    ((b.update_blocked items).1.update_blocked items).2 = false
    ∧ ((b.update_blocked items).1.update_blocked items).1 = (b.update_blocked items).1
    ∧ ((b.update_blocked items).2 = true ↔ (items.map pyLower).toFinset ≠ b.blocked_items) := by
  unfold Blocker.WindowsBlocker.update_blocked
  by_cases h : (items.map pyLower).toFinset = b.blocked_items
  · simp [h]
  · simp [h]

/-- Claim C5, witness for the amended theorem at a fresh blocker and one
item list. -/
theorem C5_idempotence_witness :
    ((Blocker.WindowsBlocker.init.update_blocked ["netflix"]).1.update_blocked ["netflix"]).2
      = false
    ∧ ((Blocker.WindowsBlocker.init.update_blocked ["netflix"]).1.update_blocked ["netflix"]).1
      = (Blocker.WindowsBlocker.init.update_blocked ["netflix"]).1
    ∧ ((Blocker.WindowsBlocker.init.update_blocked ["netflix"]).2 = true
        ↔ (["netflix"].map pyLower).toFinset ≠ Blocker.WindowsBlocker.init.blocked_items) :=
  C5_idempotence_amended Blocker.WindowsBlocker.init ["netflix"]

/-- Claim C10: `update_blocked` lower-cases every incoming item, so the
applied set only ever holds lower-case-fixed names (first conjunct: the
invariant is preserved from any state satisfying it — the fresh state `∅`
does trivially); and under that invariant an update whose items differ from
the current set only in letter case, ordering or duplicates — i.e. whose
lower-cased item set equals the current set — is a complete no-op performing
no hosts-file write (second conjunct). -/
theorem C10_lowercase_invariant :
    (∀ (b : Blocker.WindowsBlocker) (items : List String),
      (∀ s ∈ b.blocked_items, pyLower s = s) →
      ∀ s ∈ (b.update_blocked items).1.blocked_items, pyLower s = s)
    ∧ (∀ (b : Blocker.WindowsBlocker) (items : List String),
      (∀ s ∈ b.blocked_items, pyLower s = s) →
      (items.map pyLower).toFinset = b.blocked_items →
      b.update_blocked items = (b, false)) := by
  constructor
  · intro b items hinv s hs
    unfold Blocker.WindowsBlocker.update_blocked at hs
    by_cases h : (items.map pyLower).toFinset = b.blocked_items
    · rw [if_pos h] at hs
      exact hinv s hs
    · rw [if_neg h] at hs
      simp only [List.mem_toFinset, List.mem_map] at hs
      obtain ⟨t, _, rfl⟩ := hs
      exact pyLower_idem t
  · intro b items _ heq
    unfold Blocker.WindowsBlocker.update_blocked
    rw [if_pos heq]

/-- A hosts text containing no start marker is left unchanged by the managed-
region removal, at any fuel. -/
theorem removeManagedAux_no_marker (fuel : Nat) (cs : List Char)
    (h : findSub cs Blocker.MARKER_START.data = none) :
    Blocker.removeManagedAux fuel cs = cs := by
  cases fuel <;> simp [Blocker.removeManagedAux, h]

/-- A hosts text containing no start marker is left unchanged by the managed-
region removal. -/
theorem removeManaged_no_marker (content : String)
    (h : findSub content.data Blocker.MARKER_START.data = none) :
    Blocker.removeManaged content = content := by
  unfold Blocker.removeManaged
  rw [removeManagedAux_no_marker _ _ h]

/-- `str.strip()` only removes characters at the two ends: its result is a
contiguous segment of the original string. -/
theorem pyStrip_data_infix (s : String) : (Blocker.pyStrip s).data <:+: s.data := by
  show ((s.data.dropWhile Blocker.isPySpace).reverse.dropWhile Blocker.isPySpace).reverse
    <:+: s.data
  have ht : s.data.dropWhile Blocker.isPySpace <:+ s.data := List.dropWhile_suffix _
  have hu : (s.data.dropWhile Blocker.isPySpace).reverse.dropWhile Blocker.isPySpace
      <:+ (s.data.dropWhile Blocker.isPySpace).reverse := List.dropWhile_suffix _
  obtain ⟨a, ha⟩ := hu
  have hpre : ((s.data.dropWhile Blocker.isPySpace).reverse.dropWhile Blocker.isPySpace).reverse
      <+: s.data.dropWhile Blocker.isPySpace := by
    refine ⟨a.reverse, ?_⟩
    have := congrArg List.reverse ha
    simpa [List.reverse_append] using this
  exact hpre.isInfix.trans ht.isInfix

/-- A region removal step with explicit landmarks: when the start marker is
first found at `i`, the end marker first found at `j` inside the remainder,
and the text after the removed span holds no further start marker, the
removal returns exactly the splice of the text before the span and the text
after it — every character outside the marker span, in order. -/
theorem removeManagedAux_single_region (fuel : Nat) (cs : List Char) (i j : Nat)
    (hfuel : fuel ≠ 0)
    (h1 : findSub cs Blocker.MARKER_START.data = some i)
    (h2 : findSub (cs.drop (i + Blocker.MARKER_START.data.length))
            Blocker.MARKER_END.data = some j)
    (h3 : findSub ((cs.drop (i + Blocker.MARKER_START.data.length)).drop
            (j + Blocker.MARKER_END.data.length)) Blocker.MARKER_START.data = none) :
    Blocker.removeManagedAux fuel cs
      = cs.take i ++ (cs.drop (i + Blocker.MARKER_START.data.length)).drop
          (j + Blocker.MARKER_END.data.length) := by
  cases fuel with
  | zero => exact absurd rfl hfuel
  | succ n =>
    simp only [Blocker.removeManagedAux, h1, h2]
    rw [removeManagedAux_no_marker _ _ h3]

/-- See `removeManagedAux_single_region`, lifted to `removeManaged`. -/
theorem removeManaged_single_region (content : String) (i j : Nat)
    (h1 : findSub content.data Blocker.MARKER_START.data = some i)
    (h2 : findSub (content.data.drop (i + Blocker.MARKER_START.data.length))
            Blocker.MARKER_END.data = some j)
    (h3 : findSub ((content.data.drop (i + Blocker.MARKER_START.data.length)).drop
            (j + Blocker.MARKER_END.data.length)) Blocker.MARKER_START.data = none) :
    Blocker.removeManaged content
      = ⟨content.data.take i ++ (content.data.drop (i + Blocker.MARKER_START.data.length)).drop
          (j + Blocker.MARKER_END.data.length)⟩ := by
  have hne : content.data.length ≠ 0 := by
    cases hcs : content.data with
    | nil =>
      rw [hcs, show findSub ([] : List Char) Blocker.MARKER_START.data = none from by decide]
        at h1
      exact Option.noConfusion h1
    | cons c cs => simp
  unfold Blocker.removeManaged
  rw [removeManagedAux_single_region content.data.length content.data i j hne h1 h2 h3]

/-- Claim C8, counterexample.  The claim says every character outside the
managed region is preserved verbatim.  `_apply_hosts_block` runs
`content.strip()` on the whole file after removing the region: a hosts file
with *no* managed region at all and an empty blocked set still loses its
trailing newline. -/
theorem C8_strip_counterexample :
    findSub ("127.0.0.1 localhost\n" : String).data Blocker.MARKER_START.data = none
    ∧ Blocker.applyHostsContent "127.0.0.1 localhost\n" [] ≠ "127.0.0.1 localhost\n" := by
  decide

/-- Claim C8, amended: the rewrite removes the marker-delimited managed
region and regenerates it (one `127.0.0.1 domain` plus `127.0.0.1 www.domain`
line per resolved domain, appended at the end when the blocked set is
non-empty), and the text outside the markers is preserved only up to
`str.strip()` of the spliced file.  First conjunct: for marker-free content
the result is the stripped original followed by the fresh region, and the
preserved part is then a contiguous segment of the original.  Second
conjunct: for content carrying a managed region — start marker first at
`i`, end marker first at `j` in the remainder, no further start marker
after the span — the result is exactly the concatenation of all characters
outside the marker span, in order, stripped of leading and trailing
whitespace, with the fresh region appended when the set is non-empty.  The
final conjunct evaluates a stale region being removed and regenerated on
concrete content. -/
theorem C8_hosts_rewrite_amended :
    (∀ (content : String) (items : List String),
      findSub content.data Blocker.MARKER_START.data = none →
      items ≠ [] →
      Blocker.applyHostsContent content items
        = Blocker.pyStrip content ++ "\n\n" ++ Blocker.regionText items
      ∧ (Blocker.pyStrip content).data <:+: content.data)
    ∧ (∀ (content : String) (items : List String) (i j : Nat),
      findSub content.data Blocker.MARKER_START.data = some i →
      findSub (content.data.drop (i + Blocker.MARKER_START.data.length))
          Blocker.MARKER_END.data = some j →
      findSub ((content.data.drop (i + Blocker.MARKER_START.data.length)).drop
          (j + Blocker.MARKER_END.data.length)) Blocker.MARKER_START.data = none →
      Blocker.applyHostsContent content items
        = Blocker.pyStrip ⟨content.data.take i
            ++ (content.data.drop (i + Blocker.MARKER_START.data.length)).drop
              (j + Blocker.MARKER_END.data.length)⟩
          ++ (if items.isEmpty then "" else "\n\n" ++ Blocker.regionText items))
    ∧ Blocker.applyHostsContent
        ("a b\n\n" ++ Blocker.MARKER_START ++ "\n127.0.0.1 x.com\n127.0.0.1 www.x.com\n"
          ++ Blocker.MARKER_END ++ "\n") ["example.org"]
      = "a b\n\n" ++ Blocker.MARKER_START
        ++ "\n127.0.0.1 example.org\n127.0.0.1 www.example.org\n" ++ Blocker.MARKER_END := by
  refine ⟨?_, ?_, by decide⟩
  · intro content items hmark hne
    refine ⟨?_, pyStrip_data_infix content⟩
    unfold Blocker.applyHostsContent
    rw [removeManaged_no_marker content hmark]
    cases items with
    | nil => exact absurd rfl hne
    | cons i is => rfl
  · intro content items i j h1 h2 h3
    unfold Blocker.applyHostsContent
    rw [removeManaged_single_region content i j h1 h2 h3]
    cases items with
    | nil =>
      simp only [List.isEmpty_nil, if_true]
      exact (String.append_empty _).symm
    | cons it its => simp [String.append_assoc]

/-- Claim C8, witness for the amended theorem: marker-free content plus one
blocked item (first conjunct), and content whose managed region sits between
a head line and a tail line, rewritten with an empty set — the head and tail
are spliced and stripped, nothing else survives (second conjunct). -/
theorem C8_hosts_rewrite_witness :
    (Blocker.applyHostsContent "# hosts\n127.0.0.1 localhost\n" ["example.org"]
      = Blocker.pyStrip "# hosts\n127.0.0.1 localhost\n" ++ "\n\n"
        ++ Blocker.regionText ["example.org"]
    ∧ (Blocker.pyStrip "# hosts\n127.0.0.1 localhost\n").data
      <:+: ("# hosts\n127.0.0.1 localhost\n" : String).data)
    ∧ Blocker.applyHostsContent
        ("head\n" ++ Blocker.MARKER_START ++ "\nX\n" ++ Blocker.MARKER_END ++ "\ntail\n") []
      = Blocker.pyStrip ⟨(("head\n" ++ Blocker.MARKER_START ++ "\nX\n"
            ++ Blocker.MARKER_END ++ "\ntail\n" : String)).data.take 5
          ++ ((("head\n" ++ Blocker.MARKER_START ++ "\nX\n"
            ++ Blocker.MARKER_END ++ "\ntail\n" : String)).data.drop
              (5 + Blocker.MARKER_START.data.length)).drop
            (3 + Blocker.MARKER_END.data.length)⟩
        ++ (if ([] : List String).isEmpty then ""
            else "\n\n" ++ Blocker.regionText ([] : List String)) :=
  ⟨C8_hosts_rewrite_amended.1 "# hosts\n127.0.0.1 localhost\n" ["example.org"]
    (by decide) (by decide),
   C8_hosts_rewrite_amended.2.1
    ("head\n" ++ Blocker.MARKER_START ++ "\nX\n" ++ Blocker.MARKER_END ++ "\ntail\n") [] 5 3
    (by decide) (by decide) (by decide)⟩

/-- Bridge: a `find?` over a list none of whose elements satisfies the
predicate is `none`. -/
theorem find?_eq_none_of_any_eq_false {α : Type} (l : List α) (p : α → Bool)
    (h : l.any p = false) : l.find? p = none := by
  rw [List.find?_eq_none]
  intro x hx
  rw [List.any_eq_false] at h
  exact h x hx

/-- Claim C6: the strict priority order of `detect_screen_type`.
In order of the conjuncts:
1. a window class matching the always-allowed set yields `ALLOWED` whatever
   the title;
2. otherwise a class matching the always-blocked set yields `FEED`;
3. otherwise, for *whatever* app row the table search selects — the first
   `APP_PATTERNS` row whose window-class pattern matches — the outcome is
   determined by that row alone, with DM patterns strictly before
   server/channel patterns: a DM-pattern match on the title yields that
   app's `DM` immediately (no assumption about the server patterns, which
   may also match); otherwise a server-pattern match yields
   `SERVER_CHANNEL`; otherwise the result is that app's `UNKNOWN` — the
   classifier never falls through to a later app row;
4. when no app row matches at all (and neither fixed set did), the result is
   `("unknown", ALLOWED)` — fail-open;
5. concretely, `"@alice - Discord"` with class `discord` is classified `DM`,
   even though (6.) the broad server pattern `.+ - Discord$` also matches
   that title. -/
theorem C6_window_priority :
    (∀ cls title : String,
      WindowMonitor.ALLOWED_APPS.any (fun a => strContains (pyLower cls) (pyLower a)) = true →
      (WindowMonitor.detect_screen_type cls title).2 = WindowMonitor.ScreenType.ALLOWED)
    ∧ (∀ cls title : String,
      WindowMonitor.ALLOWED_APPS.any (fun a => strContains (pyLower cls) (pyLower a)) = false →
      WindowMonitor.BLOCKED_APPS.any (fun b => strContains (pyLower cls) (pyLower b)) = true →
      (WindowMonitor.detect_screen_type cls title).2 = WindowMonitor.ScreenType.FEED)
    ∧ (∀ (cls title app : String) (d : WindowMonitor.AppDef),
      WindowMonitor.ALLOWED_APPS.any (fun a => strContains (pyLower cls) (pyLower a)) = false →
      WindowMonitor.BLOCKED_APPS.any (fun b => strContains (pyLower cls) (pyLower b)) = false →
      WindowMonitor.APP_PATTERNS.find?
        (fun row => WindowMonitor.wmClassMatches row.2 (pyLower cls)) = some (app, d) →
      (WindowMonitor.anyPatMatches d.dm_patterns title = true →
        WindowMonitor.detect_screen_type cls title = (app, WindowMonitor.ScreenType.DM))
      ∧ (WindowMonitor.anyPatMatches d.dm_patterns title = false →
         WindowMonitor.anyPatMatches d.server_patterns title = true →
        WindowMonitor.detect_screen_type cls title
          = (app, WindowMonitor.ScreenType.SERVER_CHANNEL))
      ∧ (WindowMonitor.anyPatMatches d.dm_patterns title = false →
         WindowMonitor.anyPatMatches d.server_patterns title = false →
        WindowMonitor.detect_screen_type cls title = (app, WindowMonitor.ScreenType.UNKNOWN)))
    ∧ (∀ cls title : String,
      WindowMonitor.ALLOWED_APPS.any (fun a => strContains (pyLower cls) (pyLower a)) = false →
      WindowMonitor.BLOCKED_APPS.any (fun b => strContains (pyLower cls) (pyLower b)) = false →
      WindowMonitor.APP_PATTERNS.find?
        (fun row => WindowMonitor.wmClassMatches row.2 (pyLower cls)) = none →
      WindowMonitor.detect_screen_type cls title
        = ("unknown", WindowMonitor.ScreenType.ALLOWED))
    ∧ WindowMonitor.detect_screen_type "discord" "@alice - Discord"
        = ("discord", WindowMonitor.ScreenType.DM)
    ∧ WindowMonitor.anyPatMatches WindowMonitor.discordDef.server_patterns "@alice - Discord"
        = true := by
  refine ⟨?_, ?_, ?_, ?_, by decide, by decide⟩
  · intro cls title hall
    cases hfa : WindowMonitor.ALLOWED_APPS.find?
        (fun a => strContains (pyLower cls) (pyLower a)) with
    | some a => simp [WindowMonitor.detect_screen_type, hfa]
    | none =>
      rw [List.find?_eq_none] at hfa
      obtain ⟨x, hx, hp⟩ := List.any_eq_true.mp hall
      exact absurd hp (hfa x hx)
  · intro cls title hall hblk
    have hfa := find?_eq_none_of_any_eq_false _ _ hall
    cases hfb : WindowMonitor.BLOCKED_APPS.find?
        (fun b => strContains (pyLower cls) (pyLower b)) with
    | some b => simp [WindowMonitor.detect_screen_type, hfa, hfb]
    | none =>
      rw [List.find?_eq_none] at hfb
      obtain ⟨x, hx, hp⟩ := List.any_eq_true.mp hblk
      exact absurd hp (hfb x hx)
  · intro cls title app d hall hblk hfind
    have hfa := find?_eq_none_of_any_eq_false _ _ hall
    have hfb := find?_eq_none_of_any_eq_false _ _ hblk
    refine ⟨fun hdm => ?_, fun hdm hsv => ?_, fun hdm hsv => ?_⟩
    · simp [WindowMonitor.detect_screen_type, hfa, hfb, hfind, hdm]
    · simp [WindowMonitor.detect_screen_type, hfa, hfb, hfind, hdm, hsv]
    · simp [WindowMonitor.detect_screen_type, hfa, hfb, hfind, hdm, hsv]
  · intro cls title hall hblk hfind
    have hfa := find?_eq_none_of_any_eq_false _ _ hall
    have hfb := find?_eq_none_of_any_eq_false _ _ hblk
    simp [WindowMonitor.detect_screen_type, hfa, hfb, hfind]

/-- Claim C6, witness: one concrete window per priority conjunct, exercising
the row-generic conjunct at all three table rows (`discord` DM with the
server pattern also matching, `twitter` server, `slack` unknown). -/
theorem C6_window_priority_witness :
    (WindowMonitor.detect_screen_type "spotify" "x").2 = WindowMonitor.ScreenType.ALLOWED
    ∧ (WindowMonitor.detect_screen_type "netflix" "x").2 = WindowMonitor.ScreenType.FEED
    ∧ WindowMonitor.detect_screen_type "discord" "@alice - Discord"
        = ("discord", WindowMonitor.ScreenType.DM)
    ∧ WindowMonitor.detect_screen_type "twitter" "Home"
        = ("twitter", WindowMonitor.ScreenType.SERVER_CHANNEL)
    ∧ WindowMonitor.detect_screen_type "slack" "xyz"
        = ("slack", WindowMonitor.ScreenType.UNKNOWN)
    ∧ WindowMonitor.detect_screen_type "emacs" "foo"
        = ("unknown", WindowMonitor.ScreenType.ALLOWED) :=
  ⟨C6_window_priority.1 "spotify" "x" (by decide),
   C6_window_priority.2.1 "netflix" "x" (by decide) (by decide),
   (C6_window_priority.2.2.1 "discord" "@alice - Discord" "discord" WindowMonitor.discordDef
     (by decide) (by decide) rfl).1 (by decide),
   ((C6_window_priority.2.2.1 "twitter" "Home" "twitter" WindowMonitor.twitterDef
     (by decide) (by decide) rfl).2.1 (by decide) (by decide)),
   ((C6_window_priority.2.2.1 "slack" "xyz" "slack" WindowMonitor.slackDef
     (by decide) (by decide) rfl).2.2 (by decide) (by decide)),
   C6_window_priority.2.2.2.1 "emacs" "foo" (by decide) (by decide) rfl⟩

/-- Claim C9.  The claim says an unparseable rule record is skipped while the
rest still loads.  `RuleStore.load` has no per-record handler (it catches only
`FileNotFoundError`), so the `KeyError` raised for a record with no `"id"`
aborts the whole list comprehension: a file holding one well-formed record
followed by one malformed record loads *nothing* (first conjunct), although
the well-formed record alone parses (second conjunct). -/
theorem C9_load_aborts_on_malformed :
    Models.RuleStore.loadRules "t0"
      [{ id := some "good", blocked_items := some ["netflix"],
         condition := some { type := some "tomorrow" } },
       { id := none }]
      = Except.error "KeyError: id"
    ∧ Models.RuleStore.loadRules "t0"
      [{ id := some "good", blocked_items := some ["netflix"],
         condition := some { type := some "tomorrow" } }]
      = Except.ok [{ id := "good", blocked_items := ["netflix"],
                     condition := { type := Models.ConditionType.TOMORROW },
                     enabled := true, created_at := "t0" }] := by
  decide

/-- The scoring fold adds, per category, exactly the total weight of its
matching entries, and appends exactly their evidence names in order. -/
theorem scoreStep_foldl_eq (tl : List Char) :
    ∀ (es : List ScreenAnalyzer.ScoreEntry)
      (fg : (ScreenAnalyzer.ScreenType → ℚ) × (ScreenAnalyzer.ScreenType → List String))
      (st : ScreenAnalyzer.ScreenType),
      (es.foldl (ScreenAnalyzer.scoreStep tl) fg).1 st
        = fg.1 st + ScreenAnalyzer.entryWeightSum tl es st
      ∧ (es.foldl (ScreenAnalyzer.scoreStep tl) fg).2 st
        = fg.2 st ++ ScreenAnalyzer.entryNames tl es st := by
  intro es
  induction es with
  | nil =>
    intro fg st
    simp [ScreenAnalyzer.entryWeightSum, ScreenAnalyzer.entryNames]
  | cons e es ih =>
    intro fg st
    rw [List.foldl_cons]
    rcases hsearch : e.pat.search tl with _ | _
    · have hstep : ScreenAnalyzer.scoreStep tl fg e = fg := by
        simp [ScreenAnalyzer.scoreStep, hsearch]
      rw [hstep]
      have h := ih fg st
      refine ⟨?_, ?_⟩
      · rw [h.1]
        simp [ScreenAnalyzer.entryWeightSum, hsearch]
      · rw [h.2]
        simp [ScreenAnalyzer.entryNames, hsearch]
    · have hstep : ScreenAnalyzer.scoreStep tl fg e
          = (ScreenAnalyzer.bump e.st e.w fg.1, ScreenAnalyzer.pushName e.st e.name fg.2) := by
        simp [ScreenAnalyzer.scoreStep, hsearch]
      rw [hstep]
      have h := ih (ScreenAnalyzer.bump e.st e.w fg.1, ScreenAnalyzer.pushName e.st e.name fg.2) st
      by_cases hst : e.st = st
      · subst hst
        refine ⟨?_, ?_⟩
        · rw [h.1]
          simp [ScreenAnalyzer.bump, ScreenAnalyzer.entryWeightSum, hsearch]
          ring
        · rw [h.2]
          simp [ScreenAnalyzer.pushName, ScreenAnalyzer.entryNames, hsearch]
      · refine ⟨?_, ?_⟩
        · rw [h.1]
          have : st ≠ e.st := fun hc => hst hc.symm
          simp [ScreenAnalyzer.bump, ScreenAnalyzer.entryWeightSum, hsearch, this, hst]
        · rw [h.2]
          have : st ≠ e.st := fun hc => hst hc.symm
          simp [ScreenAnalyzer.pushName, ScreenAnalyzer.entryNames, hsearch, this, hst]

/-- What the accumulation loops produce from a zero start. -/
theorem runEntries_eq (tl : List Char) (es : List ScreenAnalyzer.ScoreEntry)
    (st : ScreenAnalyzer.ScreenType) :
    (ScreenAnalyzer.runEntries tl es).1 st = ScreenAnalyzer.entryWeightSum tl es st
    ∧ (ScreenAnalyzer.runEntries tl es).2 st = ScreenAnalyzer.entryNames tl es st := by
  have h := scoreStep_foldl_eq tl es (fun _ => 0, fun _ => []) st
  unfold ScreenAnalyzer.runEntries
  constructor
  · rw [h.1]; simp
  · rw [h.2]; simp

/-- Weight sums split over concatenation of entry sequences. -/
theorem entryWeightSum_append (tl : List Char) (es₁ es₂ : List ScreenAnalyzer.ScoreEntry)
    (st : ScreenAnalyzer.ScreenType) :
    ScreenAnalyzer.entryWeightSum tl (es₁ ++ es₂) st
      = ScreenAnalyzer.entryWeightSum tl es₁ st + ScreenAnalyzer.entryWeightSum tl es₂ st := by
  simp [ScreenAnalyzer.entryWeightSum, List.filter_append]

/-- The weight sum of one uniformly-weighted tier: the weight times the
number of matching patterns, provided the tier is tagged with the category
being read (and zero otherwise). -/
theorem entryWeightSum_tier (tl : List Char) (l : List Pat) (c : ScreenAnalyzer.ScreenType)
    (w : ℚ) (tag : Pat → String) (st : ScreenAnalyzer.ScreenType) :
    ScreenAnalyzer.entryWeightSum tl
      (l.map (fun p => (⟨c, w, tag p, p⟩ : ScreenAnalyzer.ScoreEntry))) st
      = if c = st then w * (ScreenAnalyzer.countMatches l tl : ℚ) else 0 := by
  induction l with
  | nil => simp [ScreenAnalyzer.entryWeightSum, ScreenAnalyzer.countMatches]
  | cons p l ih =>
    rcases hsearch : p.search tl with _ | _
    · by_cases hc : c = st <;>
        simp_all [ScreenAnalyzer.entryWeightSum, ScreenAnalyzer.countMatches,
          List.filter_cons, hsearch]
    · by_cases hc : c = st
      · subst hc
        simp_all [ScreenAnalyzer.entryWeightSum, ScreenAnalyzer.countMatches,
          List.filter_cons, hsearch]
        ring
      · simp_all [ScreenAnalyzer.entryWeightSum, ScreenAnalyzer.countMatches,
          List.filter_cons, hsearch]

/-- Weight sums over a `flatMap` are the sums of the pieces. -/
theorem entryWeightSum_flatMap {α : Type} (tl : List Char) (l : List α)
    (f : α → List ScreenAnalyzer.ScoreEntry) (st : ScreenAnalyzer.ScreenType) :
    ScreenAnalyzer.entryWeightSum tl (l.flatMap f) st
      = (l.map (fun x => ScreenAnalyzer.entryWeightSum tl (f x) st)).sum := by
  induction l with
  | nil => simp [ScreenAnalyzer.entryWeightSum]
  | cons x l ih => simp [List.flatMap_cons, entryWeightSum_append, ih]

/-- The general entries contribute to each category exactly `2.0` per strong
match plus `0.5` per medium match of that category's declared tiers. -/
theorem generalEntries_score (tl : List Char) (st : ScreenAnalyzer.ScreenType) :
    ScreenAnalyzer.entryWeightSum tl ScreenAnalyzer.generalEntries st
      = 2 * (ScreenAnalyzer.countMatches (ScreenAnalyzer.patternsFor st).strong tl : ℚ)
        + (1 / 2) * (ScreenAnalyzer.countMatches (ScreenAnalyzer.patternsFor st).medium tl : ℚ) := by
  have hrow : ∀ row : ScreenAnalyzer.ScreenType × ScreenAnalyzer.PatternGroup,
      ScreenAnalyzer.entryWeightSum tl
        (row.2.strong.map
          (fun p => (⟨row.1, 2, "strong:" ++ p.src, p⟩ : ScreenAnalyzer.ScoreEntry))
         ++ row.2.medium.map
          (fun p => (⟨row.1, 1 / 2, "medium:" ++ p.src, p⟩ : ScreenAnalyzer.ScoreEntry))) st
      = if row.1 = st then
          2 * (ScreenAnalyzer.countMatches row.2.strong tl : ℚ)
            + (1 / 2) * (ScreenAnalyzer.countMatches row.2.medium tl : ℚ)
        else 0 := by
    intro row
    simp only [entryWeightSum_append, entryWeightSum_tier]
    by_cases h : row.1 = st <;> simp [h]
  unfold ScreenAnalyzer.generalEntries
  rw [entryWeightSum_flatMap]
  simp only [hrow]
  cases st <;>
    simp [ScreenAnalyzer.PATTERNS, ScreenAnalyzer.patternsFor, List.find?,
      ScreenAnalyzer.countMatches]

/-- Pull a constant rational factor out of a guarded sum of counts. -/
theorem sum_ite_mul_nat {α : Type} (c : ℚ) (l : List α) (g : α → Bool) (f : α → Nat) :
    (l.map (fun x => if g x then c * (f x : ℚ) else 0)).sum
      = c * (((l.map (fun x => if g x then f x else 0)).sum : Nat) : ℚ) := by
  induction l with
  | nil => simp
  | cons x l ih =>
    simp only [List.map_cons, List.sum_cons, ih]
    by_cases h : g x
    · simp only [h, if_true]
      push_cast
      ring
    · simp [h]

/-- The app-specific entries contribute to each category exactly `1.5` per
app-specific match credited to it. -/
theorem appEntries_score (al : String) (tl : List Char) (st : ScreenAnalyzer.ScreenType) :
    ScreenAnalyzer.entryWeightSum tl (ScreenAnalyzer.appEntries al) st
      = (3 / 2) * (ScreenAnalyzer.appMatchCount al tl st : ℚ) := by
  have hrow : ∀ row : String × ScreenAnalyzer.AppSpec,
      ScreenAnalyzer.entryWeightSum tl
        (if strContains al row.1 then
          row.2.dm.map (fun p => (⟨ScreenAnalyzer.ScreenType.DM, 3 / 2,
            "app:" ++ row.1 ++ ":" ++ p.src, p⟩ : ScreenAnalyzer.ScoreEntry))
          ++ row.2.feed.map (fun p => (⟨ScreenAnalyzer.ScreenType.FEED, 3 / 2,
            "app:" ++ row.1 ++ ":" ++ p.src, p⟩ : ScreenAnalyzer.ScoreEntry))
         else []) st
      = if strContains al row.1 then
          (if ScreenAnalyzer.ScreenType.DM = st
            then (3 / 2) * (ScreenAnalyzer.countMatches row.2.dm tl : ℚ) else 0)
          + (if ScreenAnalyzer.ScreenType.FEED = st
            then (3 / 2) * (ScreenAnalyzer.countMatches row.2.feed tl : ℚ) else 0)
        else 0 := by
    intro row
    by_cases hg : strContains al row.1
    · simp only [hg, if_true, entryWeightSum_append, entryWeightSum_tier]
    · simp [hg, ScreenAnalyzer.entryWeightSum]
  unfold ScreenAnalyzer.appEntries ScreenAnalyzer.appMatchCount
  rw [entryWeightSum_flatMap]
  simp only [hrow]
  cases st
  case DM =>
    simp only [show (ScreenAnalyzer.ScreenType.DM = ScreenAnalyzer.ScreenType.DM) = True
        from by simp,
      show (ScreenAnalyzer.ScreenType.FEED = ScreenAnalyzer.ScreenType.DM) = False
        from by simp,
      if_true, if_false, add_zero]
    exact sum_ite_mul_nat (3 / 2) ScreenAnalyzer.APP_SPECIFIC
      (fun row => strContains al row.1) (fun row => ScreenAnalyzer.countMatches row.2.dm tl)
  case FEED =>
    simp only [show (ScreenAnalyzer.ScreenType.DM = ScreenAnalyzer.ScreenType.FEED) = False
        from by simp,
      show (ScreenAnalyzer.ScreenType.FEED = ScreenAnalyzer.ScreenType.FEED) = True
        from by simp,
      if_true, if_false, zero_add]
    exact sum_ite_mul_nat (3 / 2) ScreenAnalyzer.APP_SPECIFIC _ _
  all_goals
    simp [ScreenAnalyzer.countMatches]

/-- A running maximum never drops below its seed. -/
theorem le_foldl_max {α : Type} (f : α → ℚ) :
    ∀ (l : List α) (m : ℚ), m ≤ l.foldl (fun q y => max q (f y)) m := by
  intro l
  induction l with
  | nil => intro m; simp
  | cons x l ih =>
    intro m
    rw [List.foldl_cons]
    exact le_trans (le_max_left _ _) (ih _)

/-- Python's `max(..., key=f)` over a non-empty sequence — a left fold keeping
the incumbent on ties — returns exactly the first element whose key equals
the maximum key. -/
theorem foldl_pick_find {α : Type} (f : α → ℚ) :
    ∀ (l : List α) (a : α),
      (a :: l).find? (fun x => decide (f x = l.foldl (fun q y => max q (f y)) (f a)))
        = some (l.foldl (fun b y => if f b < f y then y else b) a) := by
  intro l
  induction l with
  | nil =>
    intro a
    simp [List.find?]
  | cons x xs ih =>
    intro a
    have hfb : f (if f a < f x then x else a) = max (f a) (f x) := by
      rcases lt_or_le (f a) (f x) with h | h
      · simp [h, max_eq_right h.le]
      · simp [not_lt.mpr h, max_eq_left h]
    rw [show (x :: xs).foldl (fun q y => max q (f y)) (f a)
        = xs.foldl (fun q y => max q (f y)) (f (if f a < f x then x else a)) from by
      rw [List.foldl_cons, hfb]]
    rw [show (x :: xs).foldl (fun b y => if f b < f y then y else b) a
        = xs.foldl (fun b y => if f b < f y then y else b) (if f a < f x then x else a) from by
      rw [List.foldl_cons]]
    set b := if f a < f x then x else a with hbdef
    set M := xs.foldl (fun q y => max q (f y)) (f b) with hMdef
    have hIH := ih b
    rw [← hMdef] at hIH
    have hbM : f b ≤ M := by rw [hMdef]; exact le_foldl_max f xs (f b)
    have haM : f a ≤ M := le_trans (le_trans (le_max_left (f a) (f x)) hfb.ge) hbM
    have hxM : f x ≤ M := le_trans (le_trans (le_max_right (f a) (f x)) hfb.ge) hbM
    by_cases hA : f a = M
    · have hax : ¬ f a < f x := not_lt.mpr (le_trans hxM hA.ge)
      have hba : b = a := by rw [hbdef, if_neg hax]
      rw [hba] at hIH ⊢
      rw [List.find?_cons_of_pos _ (by simp only [decide_eq_true_eq]; exact hA)]
      rw [List.find?_cons_of_pos _ (by simp only [decide_eq_true_eq]; exact hA)] at hIH
      exact hIH
    · rw [List.find?_cons_of_neg _ (by simp only [decide_eq_true_eq]; exact hA)]
      by_cases hX : f x = M
      · have hax : f a < f x := lt_of_le_of_ne (le_trans haM hX.ge)
          (fun heq => hA (heq.trans hX))
        have hbx : b = x := by rw [hbdef, if_pos hax]
        rw [hbx] at hIH ⊢
        rw [List.find?_cons_of_pos _ (by simp only [decide_eq_true_eq]; exact hX)]
        rw [List.find?_cons_of_pos _ (by simp only [decide_eq_true_eq]; exact hX)] at hIH
        exact hIH
      · have hfbM : ¬ f b = M := by
          rcases max_choice (f a) (f x) with h | h
          · rw [hfb, h]; exact hA
          · rw [hfb, h]; exact hX
        rw [List.find?_cons_of_neg _ (by simp only [decide_eq_true_eq]; exact hX)]
        rw [List.find?_cons_of_neg _ (by simp only [decide_eq_true_eq]; exact hfbM)] at hIH
        exact hIH

/-- The spec's selection rule (first declared category attaining the maximum
score) coincides with the code's fold (Python `max` over the score
dictionary in declaration order). -/
theorem specBest_eq_pickBest (f : ScreenAnalyzer.ScreenType → ℚ) :
    ScreenAnalyzer.specBest f = ScreenAnalyzer.pickBest f := by
  have h := foldl_pick_find f
    [ScreenAnalyzer.ScreenType.FEED, ScreenAnalyzer.ScreenType.REELS,
     ScreenAnalyzer.ScreenType.NOTIFICATIONS, ScreenAnalyzer.ScreenType.PROFILE,
     ScreenAnalyzer.ScreenType.SEARCH, ScreenAnalyzer.ScreenType.SETTINGS,
     ScreenAnalyzer.ScreenType.UNKNOWN] ScreenAnalyzer.ScreenType.DM
  simp only [ScreenAnalyzer.specBest, ScreenAnalyzer.pickBest]
  rw [show ScreenAnalyzer.declOrder.drop 1
      = [ScreenAnalyzer.ScreenType.FEED, ScreenAnalyzer.ScreenType.REELS,
         ScreenAnalyzer.ScreenType.NOTIFICATIONS, ScreenAnalyzer.ScreenType.PROFILE,
         ScreenAnalyzer.ScreenType.SEARCH, ScreenAnalyzer.ScreenType.SETTINGS,
         ScreenAnalyzer.ScreenType.UNKNOWN] from rfl]
  rw [show ScreenAnalyzer.declOrder
      = ScreenAnalyzer.ScreenType.DM ::
        [ScreenAnalyzer.ScreenType.FEED, ScreenAnalyzer.ScreenType.REELS,
         ScreenAnalyzer.ScreenType.NOTIFICATIONS, ScreenAnalyzer.ScreenType.PROFILE,
         ScreenAnalyzer.ScreenType.SEARCH, ScreenAnalyzer.ScreenType.SETTINGS,
         ScreenAnalyzer.ScreenType.UNKNOWN] from rfl]
  rw [h]
  rfl

/-- Every spec-side category score is non-negative. -/
theorem specScore_nonneg (text app_hint : String) (st : ScreenAnalyzer.ScreenType) :
    0 ≤ ScreenAnalyzer.specScore text app_hint st := by
  unfold ScreenAnalyzer.specScore
  positivity

/-- Claim C7: the OCR-text classifier realises exactly the specified scoring
model.  First conjunct: `classify_text` coincides, for every input text and
app hint, with the spec-side formulation `specClassify` — per-category scores
of `+2.0` per strong match, `+0.5` per medium match and `+1.5` per
app-specific match for a hinted known app; selection of the highest-scoring
category with ties resolved to the first-declared one; confidence
`best / total` clamped; and the degradation to `(UNKNOWN, 0, no evidence)`
whenever the winning score is below `1.0` (in particular when nothing
matches).  The remaining conjuncts: the reported confidence always lies in
`[0, 1]`. -/
theorem C7_ocr_scoring (text app_hint : String) :
    ScreenAnalyzer.classify_text text app_hint = ScreenAnalyzer.specClassify text app_hint
    ∧ 0 ≤ (ScreenAnalyzer.classify_text text app_hint).2.1
    ∧ (ScreenAnalyzer.classify_text text app_hint).2.1 ≤ 1 := by
  have hscores : (ScreenAnalyzer.runEntries (pyLower text).data
        (ScreenAnalyzer.generalEntries ++ ScreenAnalyzer.appEntries (pyLower app_hint))).1
      = ScreenAnalyzer.specScore text app_hint := by
    funext st
    rw [(runEntries_eq _ _ st).1, entryWeightSum_append, generalEntries_score, appEntries_score]
    rfl
  have hmatched : (ScreenAnalyzer.runEntries (pyLower text).data
        (ScreenAnalyzer.generalEntries ++ ScreenAnalyzer.appEntries (pyLower app_hint))).2
      = ScreenAnalyzer.matchedFor text app_hint := by
    funext st
    rw [(runEntries_eq _ _ st).2]
    rfl
  have hmain : ScreenAnalyzer.classify_text text app_hint
      = ScreenAnalyzer.specClassify text app_hint := by
    simp only [ScreenAnalyzer.classify_text, ScreenAnalyzer.specClassify, hscores, hmatched,
      specBest_eq_pickBest]
  refine ⟨hmain, ?_, ?_⟩
  · rw [hmain]
    simp only [ScreenAnalyzer.specClassify,
      apply_ite (fun r : ScreenAnalyzer.ScreenType × ℚ × List String => r.2.1)]
    split_ifs with h1 h2
    · norm_num
    · exact le_min (div_nonneg (specScore_nonneg _ _ _) h2.le) (by norm_num)
    · norm_num
  · rw [hmain]
    simp only [ScreenAnalyzer.specClassify,
      apply_ite (fun r : ScreenAnalyzer.ScreenType × ℚ × List String => r.2.1)]
    split_ifs with h1 h2
    · norm_num
    · exact min_le_right _ _
    · exact min_le_right _ _

/-- Claim C10, witness: with `{"netflix"}` applied (reached by an update with
`["Netflix"]`), an update whose items differ only in case, order and
duplicates is a no-op with no write. -/
theorem C10_lowercase_witness :
    (Blocker.WindowsBlocker.init.update_blocked ["Netflix"]).1.update_blocked
      ["NETFLIX", "netflix", "Netflix"]
    = ((Blocker.WindowsBlocker.init.update_blocked ["Netflix"]).1, false) :=
  C10_lowercase_invariant.2 _ ["NETFLIX", "netflix", "Netflix"]
    (C10_lowercase_invariant.1 Blocker.WindowsBlocker.init ["Netflix"]
      (by simp [Blocker.WindowsBlocker.init]))
    (by decide)
